import Mathlib

set_option maxHeartbeats 1000000

/-!
Shallow embedding of the playaevents repository
(src/playaevents/models.py and src/playaevents/api/handlers.py).

Entities are records, the database is one list per table, Django queryset
operations become list operations, and the piston `rc` responses become an
inductive type.  An uncaught Python exception is modelled as `none` /
`Halt.crash`; a caught exception that produces an error response is an
ordinary value.
-/

/-- models.py `Year` (fields the API layer touches). -/
structure Year where
  id : Nat
  year : String
  deriving DecidableEq

/-- models.py `CircularStreet` (fields the API layer touches). -/
structure CircularStreet where
  id : Nat
  yearId : Nat
  deriving DecidableEq

/-- models.py `TimeStreet` (fields the API layer touches). -/
structure TimeStreet where
  id : Nat
  yearId : Nat
  deriving DecidableEq

/-- models.py `ArtInstallation` (fields the API layer touches). -/
structure ArtInstallation where
  id : Nat
  yearId : Nat
  name : String
  deriving DecidableEq

/-- models.py `ThemeCamp`.  `list_online` defaults to `True`, `deleted` to
`False`.  Columns never touched by the handlers (image, time_address,
contact_email) are omitted. -/
structure ThemeCamp where
  id : Nat
  yearId : Nat
  name : String
  slug : String
  description : String
  url : String
  hometown : String
  location_string : String
  list_online : Bool
  circular_streetId : Option Nat
  bm_fm_id : Option Int
  deleted : Bool
  deriving DecidableEq

/-- models.py `PlayaEvent` (fields the API layer touches).  A
`NullBooleanField` NULL is modelled as `false`; `moderation` ranges over
`"U"`, `"A"`, `"R"` with default `"U"`. -/
structure PlayaEvent where
  id : Nat
  yearId : Nat
  print_description : String
  slug : String
  event_typeId : Nat
  hosted_by_campId : Option Nat
  located_at_artId : Option Nat
  other_location : String
  url : String
  contact_email : String
  check_location : Bool
  all_day : Bool
  list_online : Bool
  list_contact_online : Bool
  creatorId : Nat
  moderation : String
  deriving DecidableEq

/-- swingtime `Occurrence` (external scheduling collaborator): one concrete
start/end time pair owned by an event; instants are modelled as naturals. -/
structure Occurrence where
  id : Nat
  eventId : Nat
  start_time : Nat
  end_time : Nat
  deriving DecidableEq

/-- swingtime `EventType` reference data. -/
structure EventType where
  id : Nat
  abbr : String
  deriving DecidableEq

/-- The database: one list of rows per table. -/
structure DB where
  years : List Year
  camps : List ThemeCamp
  arts : List ArtInstallation
  events : List PlayaEvent
  occurrences : List Occurrence
  cstreets : List CircularStreet
  tstreets : List TimeStreet
  eventTypes : List EventType
  deriving DecidableEq

/-- models.py `ThemeCampManager.get_query_set`: the default
`ThemeCamp.objects` queryset filters out `list_online=False` rows. -/
def themeCampObjects (db : DB) : List ThemeCamp :=
  db.camps.filter (fun c => c.list_online)

/-- handlers.py `BasePlayaEventHandler.read` (lines 83-103).  `PlayaEvent.objects`
has no default filter.  `none` models the uncaught `Year.DoesNotExist`
raised by `Year.objects.get(year=year_year)`. -/
def playaEventRead (db : DB) (year_year : Option String) (playa_event_id : Option Nat)
    (start_time end_time : Option Nat) : Option (List PlayaEvent) :=
  match year_year with
  | none => some (db.events.filter (fun e => e.moderation == "A" && e.list_online))
  | some yy =>
    match db.years.find? (fun y => y.year == yy) with
    | none => none
    | some year =>
      match playa_event_id with
      | some eid =>
        some (db.events.filter
          (fun e => e.yearId == year.id && e.id == eid && e.list_online))
      | none =>
        match start_time, end_time with
        | some st, some et =>
          let event_list := (db.occurrences.filter
            (fun o => decide (st ≤ o.start_time) && decide (o.end_time ≤ et))).map
              (fun o => o.eventId)
          some (db.events.filter (fun e => event_list.contains e.id))
        | some st, none =>
          let event_list := (db.occurrences.filter
            (fun o => decide (st ≤ o.start_time))).map (fun o => o.eventId)
          some (db.events.filter (fun e => event_list.contains e.id))
        | none, some et =>
          let event_list := (db.occurrences.filter
            (fun o => decide (o.end_time ≤ et))).map (fun o => o.eventId)
          some (db.events.filter (fun e => event_list.contains e.id))
        | none, none =>
          some (db.events.filter
            (fun e => e.yearId == year.id && e.moderation == "A" && e.list_online))

/-- handlers.py `BaseThemeCampHandler.read` (lines 268-278).  Every query goes
through the default (`list_online`-filtered) manager and additionally filters
`list_online=True` explicitly, as the source does.  `none` models the
uncaught `Year.DoesNotExist`. -/
def themeCampRead (db : DB) (year_year : Option String) (camp_id : Option Nat) :
    Option (List ThemeCamp) :=
  match year_year with
  | none => some ((themeCampObjects db).filter (fun c => c.list_online))
  | some yy =>
    match db.years.find? (fun y => y.year == yy) with
    | none => none
    | some year =>
      match camp_id with
      | some cid =>
        some ((themeCampObjects db).filter
          (fun c => c.yearId == year.id && c.id == cid && c.list_online))
      | none =>
        some ((themeCampObjects db).filter
          (fun c => c.yearId == year.id && c.list_online))

/-- A request `QueryDict`: string keys to string values; lookups take the
first binding of a key. -/
abbrev FieldMap := List (String × String)

/-- `data[k]`: the first binding of `k`. -/
def fmGet : FieldMap → String → Option String
  | [], _ => none
  | kv :: t, k => if kv.1 == k then some kv.2 else fmGet t k

/-- `k in data`. -/
def fmHas (m : FieldMap) (k : String) : Bool :=
  (fmGet m k).isSome

/-- `del data[k]`: remove every binding of `k`. -/
def fmDel : FieldMap → String → FieldMap
  | [], _ => []
  | kv :: t, k => if kv.1 == k then fmDel t k else kv :: fmDel t k

/-- `data[k] = v`. -/
def fmSet (m : FieldMap) (k v : String) : FieldMap :=
  (k, v) :: fmDel m k

/-- Python `str.upper()` (character-wise ASCII uppercasing, which is what
`.upper()` does on the ASCII letters these handlers compare against). -/
def strUpper (s : String) : String :=
  ⟨s.data.map Char.toUpper⟩

/-- The piston `rc` responses the handlers use; `allOk`/`created` carry the
`{"pk": id}` body the handlers attach. -/
inductive ApiResponse where
  | badRequest (msg : String)
  | notHere (msg : String)
  | allOk (pk : Nat)
  | created (pk : Nat)
  | deletedOk (msg : String)
  deriving DecidableEq

/-- Whether a response is one of the error responses (rc.BAD_REQUEST /
rc.NOT_HERE). -/
def ApiResponse.isError : ApiResponse → Bool
  | .badRequest _ => true
  | .notHere _ => true
  | _ => false

/-- Abnormal exit from the straight-line handler body: an early-returned
error response, or an uncaught Python exception. -/
inductive Halt where
  | resp (r : ApiResponse)
  | crash
  deriving DecidableEq

/-- The primary key Django assigns to a newly inserted event. -/
def freshEventId (db : DB) : Nat :=
  db.events.foldl (fun m e => max m e.id) 0 + 1

/-- The primary key Django assigns to a newly inserted camp. -/
def freshCampId (db : DB) : Nat :=
  db.camps.foldl (fun m c => max m c.id) 0 + 1

/-- `PlayaEvent()` with the model defaults, creator stamped
(handlers.py 154-155). -/
def newPlayaEvent (eid userId : Nat) : PlayaEvent :=
  { id := eid, yearId := 0, print_description := "", slug := "",
    event_typeId := 0, hosted_by_campId := none, located_at_artId := none,
    other_location := "", url := "", contact_email := "",
    check_location := false, all_day := false, list_online := false,
    list_contact_online := false, creatorId := userId, moderation := "U" }

/-- `ThemeCamp()` with the model defaults (`list_online=True`,
`deleted=False`).  The source's `obj.creator = user` (handlers.py 330) sets a
transient attribute — ThemeCamp has no creator column — and is dropped. -/
def newThemeCamp (cid : Nat) : ThemeCamp :=
  { id := cid, yearId := 0, name := "", slug := "", description := "",
    url := "", hometown := "", location_string := "", list_online := true,
    circular_streetId := none, bm_fm_id := none, deleted := false }

/-- Django `qs.get(pk=<string key>)`: a non-numeric key raises an uncaught
`ValueError` (crash); otherwise the row with that pk, if any, from the given
queryset. -/
def getByPk {α : Type} (qs : List α) (pkOf : α → Nat) (key : String) :
    Except Halt (Option α) :=
  match key.toNat? with
  | none => .error .crash
  | some k => .ok (qs.find? (fun x => pkOf x == k))

/-- handlers.py 131-132 / 306-307: if the path carries a year and the field
map omits one, inject it. -/
def injectYear (p : FieldMap) (year_year : Option String) : FieldMap :=
  match year_year with
  | some yy => if fmHas p "year" then p else fmSet p "year" yy
  | none => p

/-- handlers.py 140-164: resolve the update target by pk through the
unfiltered `PlayaEvent.objects` (stripping `year` from the map on success),
or build a new event with its `event_type` resolved (default pk 1 when the
field is absent; `crash` models the uncaught `EventType.DoesNotExist` for
pk 1). -/
def resolveEventTarget (db : DB) (userId : Nat) (data : FieldMap)
    (playa_event_id : Option Nat) : Except Halt (PlayaEvent × FieldMap) :=
  match playa_event_id with
  | some eid =>
    match db.events.find? (fun e => e.id == eid) with
    | none => .error (.resp (.notHere ("Event not found #" ++ toString eid)))
    | some obj => .ok (obj, fmDel data "year")
  | none =>
    let obj := newPlayaEvent (freshEventId db) userId
    match fmGet data "event_type" with
    | none =>
      match db.eventTypes.find? (fun t => t.id == 1) with
      | none => .error .crash
      | some et => .ok ({ obj with event_typeId := et.id }, data)
    | some abbr =>
      match db.eventTypes.find? (fun t => t.abbr == abbr) with
      | none => .error (.resp (.notHere ("No such EventType: " ++ abbr)))
      | some et => .ok ({ obj with event_typeId := et.id }, data)

/-- handlers.py 172-178: resolve `data['year']` to a Year row by its label
and assign the relation. -/
def applyEventYear (db : DB) (data : FieldMap) (obj : PlayaEvent) :
    Except Halt PlayaEvent :=
  match fmGet data "year" with
  | none => .ok obj
  | some ystr =>
    match db.years.find? (fun y => y.year == ystr) with
    | none => .error (.resp (.notHere ("No such year: " ++ ystr)))
    | some y => .ok { obj with yearId := y.id }

/-- handlers.py 181-185: copy whitelisted event text fields verbatim when
present in the map. -/
def applyEventTextFields (data : FieldMap) (obj : PlayaEvent) : PlayaEvent :=
  let obj := match fmGet data "print_description" with
    | some v => { obj with print_description := v }
    | none => obj
  let obj := match fmGet data "url" with
    | some v => { obj with url := v }
    | none => obj
  let obj := match fmGet data "contact_email" with
    | some v => { obj with contact_email := v }
    | none => obj
  let obj := match fmGet data "other_location" with
    | some v => { obj with other_location := v }
    | none => obj
  match fmGet data "slug" with
  | some v => { obj with slug := v }
  | none => obj

/-- handlers.py 188-192: set moderation only when the uppercased value is one
of U, A, R; any other value is ignored without an error. -/
def applyEventModeration (data : FieldMap) (obj : PlayaEvent) : PlayaEvent :=
  match fmGet data "moderation" with
  | none => obj
  | some m =>
    if strUpper m == "U" || strUpper m == "A" || strUpper m == "R" then
      { obj with moderation := strUpper m }
    else
      obj

/-- handlers.py 194-201: resolve `hosted_by_camp` by pk through the default
(`list_online`-filtered) ThemeCamp manager. -/
def applyHostedByCamp (db : DB) (data : FieldMap) (obj : PlayaEvent) :
    Except Halt PlayaEvent :=
  match fmGet data "hosted_by_camp" with
  | none => .ok obj
  | some key =>
    match getByPk (themeCampObjects db) (fun c => c.id) key with
    | .error h => .error h
    | .ok none => .error (.resp (.notHere ("No such camp: " ++ key)))
    | .ok (some camp) => .ok { obj with hosted_by_campId := some camp.id }

/-- handlers.py 203-210: resolve `located_at_art` by pk (unfiltered
manager). -/
def applyLocatedAtArt (db : DB) (data : FieldMap) (obj : PlayaEvent) :
    Except Halt PlayaEvent :=
  match fmGet data "located_at_art" with
  | none => .ok obj
  | some key =>
    match getByPk db.arts (fun a => a.id) key with
    | .error h => .error h
    | .ok none => .error (.resp (.notHere ("No such art: " ++ key)))
    | .ok (some art) => .ok { obj with located_at_artId := some art.id }

/-- handlers.py 215-216: textual boolean coercion — true exactly for the
uppercased values 1, T, Y, YES, TRUE, ON. -/
def coerceBool (s : String) : Bool :=
  strUpper s == "1" || strUpper s == "T" || strUpper s == "Y" || strUpper s == "YES"
    || strUpper s == "TRUE" || strUpper s == "ON"

/-- handlers.py 213-218: coerce the whitelisted event boolean fields when
present in the map. -/
def applyEventBools (data : FieldMap) (obj : PlayaEvent) : PlayaEvent :=
  let obj := match fmGet data "check_location" with
    | some v => { obj with check_location := coerceBool v }
    | none => obj
  let obj := match fmGet data "all_day" with
    | some v => { obj with all_day := coerceBool v }
    | none => obj
  let obj := match fmGet data "list_online" with
    | some v => { obj with list_online := coerceBool v }
    | none => obj
  match fmGet data "list_contact_online" with
  | some v => { obj with list_contact_online := coerceBool v }
  | none => obj

/-- Django `obj.save()` for events: update the row carrying obj's pk, or
insert. -/
def saveEvent (db : DB) (obj : PlayaEvent) : DB :=
  if db.events.any (fun e => e.id == obj.id) then
    { db with events := db.events.map (fun e => if e.id == obj.id then obj else e) }
  else
    { db with events := db.events ++ [obj] }

/-- Django `obj.save()` for camps. -/
def saveCamp (db : DB) (obj : ThemeCamp) : DB :=
  if db.camps.any (fun c => c.id == obj.id) then
    { db with camps := db.camps.map (fun c => if c.id == obj.id then obj else c) }
  else
    { db with camps := db.camps ++ [obj] }

/-- The straight-line body of `PlayaEventHandler._create_or_update` from
target resolution to the last field assignment (handlers.py 140-218), in
source order: target, strip id/pk, year, text fields, moderation,
hosted_by_camp, located_at_art, booleans. -/
def eventPipeline (db : DB) (userId : Nat) (data : FieldMap)
    (playa_event_id : Option Nat) : Except Halt PlayaEvent :=
  match resolveEventTarget db userId data playa_event_id with
  | .error h => .error h
  | .ok (obj, data1) =>
    match applyEventYear db (fmDel (fmDel data1 "id") "pk") obj with
    | .error h => .error h
    | .ok obj1 =>
      match applyHostedByCamp db (fmDel (fmDel data1 "id") "pk")
          (applyEventModeration (fmDel (fmDel data1 "id") "pk")
            (applyEventTextFields (fmDel (fmDel data1 "id") "pk") obj1)) with
      | .error h => .error h
      | .ok obj3 =>
        match applyLocatedAtArt db (fmDel (fmDel data1 "id") "pk") obj3 with
        | .error h => .error h
        | .ok obj4 => .ok (applyEventBools (fmDel (fmDel data1 "id") "pk") obj4)

/-- handlers.py `PlayaEventHandler._create_or_update` (117-229).
`apiAllowed` models `user.get_profile().api_allowed`; `payload` models
`request.PUT` / `request.POST`; the save happens only after every earlier
step succeeded; `none` models an uncaught exception. -/
def playaEventCreateOrUpdate (db : DB) (apiAllowed : Bool) (method : String)
    (payload : FieldMap) (userId : Nat) (year_year : Option String)
    (playa_event_id : Option Nat) : Option (ApiResponse × DB) :=
  if !apiAllowed then
    some (.badRequest "User not permitted to use the API", db)
  else if !(method == "PUT" || method == "POST") then
    some (.badRequest ("Bad request method: " ++ method), db)
  else
    if (injectYear payload year_year).isEmpty then
      some (.badRequest "Missing critical information", db)
    else
      match eventPipeline db userId (injectYear payload year_year) playa_event_id with
      | .error .crash => none
      | .error (.resp r) => some (r, db)
      | .ok obj =>
        if method == "PUT" then
          some (.allOk obj.id, saveEvent db obj)
        else
          some (.created obj.id, saveEvent db obj)

/-- handlers.py 315-330: resolve the camp update target by pk through the
default (`list_online`-filtered) manager (stripping `year` on success), or
build a new camp. -/
def resolveCampTarget (db : DB) (data : FieldMap) (camp_id : Option Nat) :
    Except Halt (ThemeCamp × FieldMap) :=
  match camp_id with
  | some cid =>
    match (themeCampObjects db).find? (fun c => c.id == cid) with
    | none => .error (.resp (.notHere ("ThemeCamp not found #" ++ toString cid)))
    | some obj => .ok (obj, fmDel data "year")
  | none => .ok (newThemeCamp (freshCampId db), data)

/-- handlers.py 338-344: resolve `data['year']` for a camp. -/
def applyCampYear (db : DB) (data : FieldMap) (obj : ThemeCamp) :
    Except Halt ThemeCamp :=
  match fmGet data "year" with
  | none => .ok obj
  | some ystr =>
    match db.years.find? (fun y => y.year == ystr) with
    | none => .error (.resp (.notHere ("No such year: " ++ ystr)))
    | some y => .ok { obj with yearId := y.id }

/-- handlers.py 346-352: resolve `circular_street` by pk (unfiltered
manager) and assign the relation. -/
def applyCircularStreet (db : DB) (data : FieldMap) (obj : ThemeCamp) :
    Except Halt ThemeCamp :=
  match fmGet data "circular_street" with
  | none => .ok obj
  | some key =>
    match getByPk db.cstreets (fun s => s.id) key with
    | .error h => .error h
    | .ok none => .error (.resp (.notHere ("No such CircularStreet: " ++ key)))
    | .ok (some street) => .ok { obj with circular_streetId := some street.id }

/-- handlers.py 354-360: resolve `time_street` by pk.  The assignment
`obj.time_street = street` targets no ThemeCamp column (a transient
attribute), so only the lookup and its failure are modelled. -/
def applyTimeStreet (db : DB) (data : FieldMap) (obj : ThemeCamp) :
    Except Halt ThemeCamp :=
  match fmGet data "time_street" with
  | none => .ok obj
  | some key =>
    match getByPk db.tstreets (fun s => s.id) key with
    | .error h => .error h
    | .ok none => .error (.resp (.notHere ("No such TimeStreet: " ++ key)))
    | .ok (some _) => .ok obj

/-- handlers.py 363-367: copy whitelisted camp text fields verbatim when
present in the map. -/
def applyCampTextFields (data : FieldMap) (obj : ThemeCamp) : ThemeCamp :=
  let obj := match fmGet data "name" with
    | some v => { obj with name := v }
    | none => obj
  let obj := match fmGet data "description" with
    | some v => { obj with description := v }
    | none => obj
  let obj := match fmGet data "url" with
    | some v => { obj with url := v }
    | none => obj
  let obj := match fmGet data "hometown" with
    | some v => { obj with hometown := v }
    | none => obj
  let obj := match fmGet data "location_string" with
    | some v => { obj with location_string := v }
    | none => obj
  match fmGet data "slug" with
  | some v => { obj with slug := v }
  | none => obj

/-- handlers.py 370-375: coerce the whitelisted camp boolean fields
(`list_online` only). -/
def applyCampBools (data : FieldMap) (obj : ThemeCamp) : ThemeCamp :=
  match fmGet data "list_online" with
  | some v => { obj with list_online := coerceBool v }
  | none => obj

/-- The straight-line body of `ThemeCampHandler._create_or_update` from
target resolution to the last field assignment (handlers.py 315-375), in
source order: target, strip id/pk/bm_fm_id/deleted, year, circular_street,
time_street, text fields, booleans. -/
def campPipeline (db : DB) (data : FieldMap) (camp_id : Option Nat) :
    Except Halt ThemeCamp :=
  match resolveCampTarget db data camp_id with
  | .error h => .error h
  | .ok (obj, data1) =>
    match applyCampYear db
        (fmDel (fmDel (fmDel (fmDel data1 "id") "pk") "bm_fm_id") "deleted") obj with
    | .error h => .error h
    | .ok obj1 =>
      match applyCircularStreet db
          (fmDel (fmDel (fmDel (fmDel data1 "id") "pk") "bm_fm_id") "deleted") obj1 with
      | .error h => .error h
      | .ok obj2 =>
        match applyTimeStreet db
            (fmDel (fmDel (fmDel (fmDel data1 "id") "pk") "bm_fm_id") "deleted") obj2 with
        | .error h => .error h
        | .ok obj3 =>
          .ok (applyCampBools
            (fmDel (fmDel (fmDel (fmDel data1 "id") "pk") "bm_fm_id") "deleted")
            (applyCampTextFields
              (fmDel (fmDel (fmDel (fmDel data1 "id") "pk") "bm_fm_id") "deleted") obj3))

/-- handlers.py `ThemeCampHandler._create_or_update` (292-386). -/
def themeCampCreateOrUpdate (db : DB) (apiAllowed : Bool) (method : String)
    (payload : FieldMap) (year_year : Option String)
    (camp_id : Option Nat) : Option (ApiResponse × DB) :=
  if !apiAllowed then
    some (.badRequest "User not permitted to use the API", db)
  else if !(method == "PUT" || method == "POST") then
    some (.badRequest ("Bad request method: " ++ method), db)
  else
    if (injectYear payload year_year).isEmpty then
      some (.badRequest "Missing critical information", db)
    else
      match campPipeline db (injectYear payload year_year) camp_id with
      | .error .crash => none
      | .error (.resp r) => some (r, db)
      | .ok obj =>
        if method == "PUT" then
          some (.allOk obj.id, saveCamp db obj)
        else
          some (.created obj.id, saveCamp db obj)

/-- handlers.py `PlayaEventHandler.delete` (235-251): lookup by pk through
the unfiltered manager, set `moderation='R'`, save.  The year path segment is
never consulted. -/
def playaEventDelete (db : DB) (apiAllowed : Bool) (year_year : Option String)
    (playa_event_id : Option Nat) : ApiResponse × DB :=
  if !apiAllowed then
    (.badRequest "User not permitted to use the API", db)
  else
    match playa_event_id with
    | some eid =>
      match db.events.find? (fun e => e.id == eid) with
      | some obj =>
        (.deletedOk ("Event rejected #" ++ toString eid),
         saveEvent db { obj with moderation := "R" })
      | none => (.notHere ("Event not found #" ++ toString eid), db)
    | none => (.notHere "Event ID required", db)

/-- handlers.py `ThemeCampHandler.delete` (392-408): lookup by pk through the
default (`list_online`-filtered) manager, set `deleted=True`, save.  The year
path segment is never consulted. -/
def themeCampDelete (db : DB) (apiAllowed : Bool) (year_year : Option String)
    (camp_id : Option Nat) : ApiResponse × DB :=
  if !apiAllowed then
    (.badRequest "User not permitted to use the API", db)
  else
    match camp_id with
    | some cid =>
      match (themeCampObjects db).find? (fun c => c.id == cid) with
      | some obj =>
        (.deletedOk ("Camp deleted #" ++ toString cid),
         saveCamp db { obj with deleted := true })
      | none => (.notHere ("Camp not found #" ++ toString cid), db)
    | none => (.notHere "Camp ID required", db)

/-- keyedcache collaborator: entries keyed by string, holding a value and its
expiry instant. -/
abbrev CacheOf (α : Type) := List (String × α × Nat)

/-- keyedcache `cache_get`: `none` models the `NotCachedError` raised on a
missing or expired key. -/
def cacheGet {α : Type} (c : CacheOf α) (now : Nat) (key : String) : Option α :=
  match c.find? (fun e => e.1 == key) with
  | some (_, v, exp) => if now < exp then some v else none
  | none => none

/-- keyedcache `cache_set` with a `length`-second TTL. -/
def cacheSet {α : Type} (c : CacheOf α) (now : Nat) (key : String) (v : α)
    (length : Nat) : CacheOf α :=
  (key, v, now + length) :: c.filter (fun e => e.1 != key)

/-- keyedcache `cache_key(kind, 'all', **kwargs)`: a deterministic key built
from the entity kind and the query parameters. -/
def cacheKeyOf (kind : String) (kwargs : FieldMap) : String :=
  (kwargs.map (fun kv => kv.1 ++ "=" ++ kv.2)).foldl
    (fun a b => a ++ "::" ++ b) (kind ++ "::all")

/-- models.py `PlayaEventManager.get_and_cache` (176-191).  `filterFn` stands
for the ORM's `**kwargs` filtering over the manager's queryset (`db.events`,
unfiltered); on a miss the result is materialized (`list(results)`, here a
concrete list by construction) and stored for `60*60*24` seconds. -/
def playaGetAndCache (filterFn : List PlayaEvent → FieldMap → List PlayaEvent)
    (c : CacheOf (List PlayaEvent)) (now : Nat) (db : DB) (kwargs : FieldMap) :
    List PlayaEvent × CacheOf (List PlayaEvent) :=
  let key := cacheKeyOf "PlayaEvent" kwargs
  match cacheGet c now key with
  | some results => (results, c)
  | none =>
    let results := if !kwargs.isEmpty then filterFn db.events kwargs else db.events
    (results, cacheSet c now key results (60*60*24))

/-- models.py `ThemeCampManager.get_and_cache` (75-91): same shape over the
`list_online`-filtered default queryset. -/
def campGetAndCache (filterFn : List ThemeCamp → FieldMap → List ThemeCamp)
    (c : CacheOf (List ThemeCamp)) (now : Nat) (db : DB) (kwargs : FieldMap) :
    List ThemeCamp × CacheOf (List ThemeCamp) :=
  let key := cacheKeyOf "ThemeCamp" kwargs
  match cacheGet c now key with
  | some results => (results, c)
  | none =>
    let results := if !kwargs.isEmpty then filterFn (themeCampObjects db) kwargs
                   else themeCampObjects db
    (results, cacheSet c now key results (60*60*24))

/-- The field map an event update actually works from: the path year is
injected when absent, then `year` (handlers.py 149-150) and `id`/`pk`
(handlers.py 167-169) are stripped. -/
def updData (p : FieldMap) (year_year : Option String) : FieldMap :=
  fmDel (fmDel (fmDel (injectYear p year_year) "year") "id") "pk"

/-- The field map a camp update actually works from: the path year is
injected when absent, then `year` (handlers.py 324-325) and
`id`/`pk`/`bm_fm_id`/`deleted` (handlers.py 333-335) are stripped. -/
def updCampData (p : FieldMap) (year_year : Option String) : FieldMap :=
  fmDel (fmDel (fmDel (fmDel (fmDel (injectYear p year_year) "year") "id") "pk")
    "bm_fm_id") "deleted"

/-- An empty database, the base of the concrete test fixtures below. -/
def emptyDB : DB :=
  { years := [], camps := [], arts := [], events := [], occurrences := [],
    cstreets := [], tstreets := [], eventTypes := [] }

/-- Fixture: a Rejected but `list_online` event in year 2012 with pk 5. -/
def rejEvent : PlayaEvent :=
  { newPlayaEvent 5 9 with yearId := 1, moderation := "R", list_online := true }

/-- Fixture: a database holding only year 2012 and `rejEvent`. -/
def rejDB : DB :=
  { emptyDB with years := [{ id := 1, year := "2012" }], events := [rejEvent] }

/-- Fixture: a visible (list_online, not deleted) camp in year 2012 with
pk 7. -/
def visCamp : ThemeCamp := { newThemeCamp 7 with yearId := 1, name := "Camp X" }

/-- Fixture: an Accepted, `list_online` event in year 2012 with pk 5. -/
def accEvent : PlayaEvent :=
  { newPlayaEvent 5 9 with yearId := 1, moderation := "A", list_online := true }

/-- Fixture: a database holding year 2012, `visCamp` and `accEvent`. -/
def visDB : DB :=
  { emptyDB with
      years := [{ id := 1, year := "2012" }]
      camps := [visCamp]
      events := [accEvent] }

/-- Fixture: a hidden (`list_online=False`) camp with pk 3. -/
def hiddenCamp : ThemeCamp :=
  { newThemeCamp 3 with yearId := 1, name := "Hidden", list_online := false }

/-- Fixture: a database holding year 2012, `hiddenCamp`, `accEvent` and the
default event type (pk 1). -/
def hiddenDB : DB :=
  { emptyDB with
      years := [{ id := 1, year := "2012" }]
      camps := [hiddenCamp]
      events := [accEvent]
      eventTypes := [{ id := 1, abbr := "AR" }] }

/-- Fixture: year 2031 alongside `visDB` (for a path/entity year mismatch:
`accEvent` and `visCamp` belong to year 2012, id 1, not 2031, id 2). -/
def mismatchDB : DB :=
  { visDB with years := [{ id := 1, year := "2012" }, { id := 2, year := "2031" }] }

/-- Fixture: a database with the default event type but no years. -/
def noYearDB : DB := { emptyDB with eventTypes := [{ id := 1, abbr := "AR" }] }

/-- Fixture: an occurrence of `accEvent` spanning instants 2 to 8. -/
def accOcc : Occurrence := { id := 1, eventId := 5, start_time := 2, end_time := 8 }

/-- Fixture: `visDB` plus `accOcc`. -/
def occDB : DB := { visDB with occurrences := [accOcc] }

/-! ## Helper lemmas about field maps -/

theorem fmGet_fmDel_self (m : FieldMap) (k : String) : fmGet (fmDel m k) k = none := by
  induction m with
  | nil => rfl
  | cons kv t ih => by_cases h : kv.1 = k <;> simp [fmDel, fmGet, h, ih]

theorem fmGet_fmDel_ne (m : FieldMap) (k j : String) (h : k ≠ j) :
    fmGet (fmDel m j) k = fmGet m k := by
  induction m with
  | nil => rfl
  | cons kv t ih =>
    by_cases hj : kv.1 = j
    · have hk : kv.1 ≠ k := fun hkk => h (hkk ▸ hj)
      simp [fmDel, fmGet, hj, hk, ih, h.symm]
    · by_cases hk : kv.1 = k <;> simp [fmDel, fmGet, hj, hk, ih, h]

theorem fmGet_injectYear_ne (p : FieldMap) (yy : Option String) (k : String)
    (h : k ≠ "year") : fmGet (injectYear p yy) k = fmGet p k := by
  cases yy with
  | none => rfl
  | some y =>
    unfold injectYear
    by_cases hy : fmHas p "year" = true
    · simp [hy]
    · have hk : ("year" : String) ≠ k := fun hkj => h hkj.symm
      simp only [Bool.not_eq_true] at hy
      simp [hy, fmSet, fmGet, hk, fmGet_fmDel_ne p k "year" h]

theorem fmGet_updData (p : FieldMap) (yy : Option String) (k : String)
    (h1 : k ≠ "year") (h2 : k ≠ "id") (h3 : k ≠ "pk") :
    fmGet (updData p yy) k = fmGet p k := by
  unfold updData
  rw [fmGet_fmDel_ne _ _ _ h3, fmGet_fmDel_ne _ _ _ h2, fmGet_fmDel_ne _ _ _ h1,
    fmGet_injectYear_ne _ _ _ h1]

theorem fmGet_updData_year (p : FieldMap) (yy : Option String) :
    fmGet (updData p yy) "year" = none := by
  unfold updData
  rw [fmGet_fmDel_ne _ _ _ (by decide), fmGet_fmDel_ne _ _ _ (by decide),
    fmGet_fmDel_self]

theorem fmGet_updCampData (p : FieldMap) (yy : Option String) (k : String)
    (h1 : k ≠ "year") (h2 : k ≠ "id") (h3 : k ≠ "pk") (h4 : k ≠ "bm_fm_id")
    (h5 : k ≠ "deleted") :
    fmGet (updCampData p yy) k = fmGet p k := by
  unfold updCampData
  rw [fmGet_fmDel_ne _ _ _ h5, fmGet_fmDel_ne _ _ _ h4, fmGet_fmDel_ne _ _ _ h3,
    fmGet_fmDel_ne _ _ _ h2, fmGet_fmDel_ne _ _ _ h1,
    fmGet_injectYear_ne _ _ _ h1]

theorem fmGet_updCampData_year (p : FieldMap) (yy : Option String) :
    fmGet (updCampData p yy) "year" = none := by
  unfold updCampData
  rw [fmGet_fmDel_ne _ _ _ (by decide), fmGet_fmDel_ne _ _ _ (by decide),
    fmGet_fmDel_ne _ _ _ (by decide), fmGet_fmDel_ne _ _ _ (by decide),
    fmGet_fmDel_self]

theorem injectYear_isEmpty_false (p : FieldMap) (yy : Option String) (hp : p ≠ []) :
    (injectYear p yy).isEmpty = false := by
  cases yy with
  | none => simpa [injectYear, List.isEmpty_iff] using hp
  | some y =>
    unfold injectYear
    by_cases hy : fmHas p "year"
    · simpa [hy, List.isEmpty_iff] using hp
    · simp [hy, fmSet, List.isEmpty_iff]

/-! ## Unfolding equations for the read handlers -/

theorem playaEventRead_noyear (db : DB) (eid : Option Nat) (st et : Option Nat) :
    playaEventRead db none eid st et
      = some (db.events.filter (fun e => e.moderation == "A" && e.list_online)) := rfl

theorem playaEventRead_listing (db : DB) (yy : String) :
    playaEventRead db (some yy) none none none
      = match db.years.find? (fun y => y.year == yy) with
        | none => none
        | some year =>
          some (db.events.filter
            (fun e => e.yearId == year.id && e.moderation == "A" && e.list_online)) := rfl

theorem playaEventRead_byid (db : DB) (yy : String) (eid : Nat) (st et : Option Nat) :
    playaEventRead db (some yy) (some eid) st et
      = match db.years.find? (fun y => y.year == yy) with
        | none => none
        | some year =>
          some (db.events.filter
            (fun e => e.yearId == year.id && e.id == eid && e.list_online)) := rfl

theorem playaEventRead_both_times (db : DB) (yy : String) (st et : Nat) :
    playaEventRead db (some yy) none (some st) (some et)
      = match db.years.find? (fun y => y.year == yy) with
        | none => none
        | some _ =>
          some (db.events.filter (fun e =>
            (((db.occurrences.filter
              (fun o => decide (st ≤ o.start_time) && decide (o.end_time ≤ et))).map
                (fun o => o.eventId))).contains e.id)) := rfl

theorem playaEventRead_start_time (db : DB) (yy : String) (st : Nat) :
    playaEventRead db (some yy) none (some st) none
      = match db.years.find? (fun y => y.year == yy) with
        | none => none
        | some _ =>
          some (db.events.filter (fun e =>
            (((db.occurrences.filter
              (fun o => decide (st ≤ o.start_time))).map
                (fun o => o.eventId))).contains e.id)) := rfl

theorem playaEventRead_end_time (db : DB) (yy : String) (et : Nat) :
    playaEventRead db (some yy) none none (some et)
      = match db.years.find? (fun y => y.year == yy) with
        | none => none
        | some _ =>
          some (db.events.filter (fun e =>
            (((db.occurrences.filter
              (fun o => decide (o.end_time ≤ et))).map
                (fun o => o.eventId))).contains e.id)) := rfl

theorem themeCampRead_noyear (db : DB) (cid : Option Nat) :
    themeCampRead db none cid
      = some ((themeCampObjects db).filter (fun c => c.list_online)) := rfl

theorem themeCampRead_year (db : DB) (yy : String) (cid : Option Nat) :
    themeCampRead db (some yy) cid
      = match db.years.find? (fun y => y.year == yy) with
        | none => none
        | some year =>
          match cid with
          | some c =>
            some ((themeCampObjects db).filter
              (fun x => x.yearId == year.id && x.id == c && x.list_online))
          | none =>
            some ((themeCampObjects db).filter
              (fun x => x.yearId == year.id && x.list_online)) := rfl

/-! ## Claim C1 -/

/-- Claim C1 as frozen is false on the code: `BasePlayaEventHandler.read`'s
by-id branch (handlers.py 88) filters only on `list_online`, not on
moderation, so a Rejected event with `list_online=True` requested by id
through the public path is returned, not hidden.  Concretely, `rejEvent`
(moderation "R", list_online true) is the result of the public by-id read. -/
theorem c1_counterexample :
    playaEventRead rejDB (some "2012") (some 5) none none = some [rejEvent] ∧
    rejEvent.moderation = "R" ∧ rejEvent.list_online = true :=
  ⟨rfl, rfl, rfl⟩

/-- Claim C1 amended: ThemeCamp public reads never return a camp with
`list_online=False` (and a hidden camp by id yields an empty result, not an
error).  Event public reads exclude non-Accepted or non-listed events only in
the plain listings (no-year, and year without id and without time
parameters); the by-id lookup filters only on `list_online` (so `c1_counterexample`'s
Rejected-but-listed event is returned), and the start_time/end_time-narrowed
reads apply no visibility filter at all. -/
theorem c1_amended :
    (∀ db yy cid res, themeCampRead db yy cid = some res →
       ∀ c ∈ res, c.list_online = true) ∧
    (∀ db eid st et res, playaEventRead db none eid st et = some res →
       ∀ e ∈ res, e.moderation = "A" ∧ e.list_online = true) ∧
    (∀ db yy res, playaEventRead db (some yy) none none none = some res →
       ∀ e ∈ res, e.moderation = "A" ∧ e.list_online = true) ∧
    (∀ db yy eid st et res, playaEventRead db (some yy) (some eid) st et = some res →
       ∀ e ∈ res, e.list_online = true ∧ e.id = eid) := by
  refine ⟨?_, ?_, ?_, ?_⟩
  · intro db yy cid res h c hc
    cases yy with
    | none =>
      rw [themeCampRead_noyear] at h
      cases h
      simp [List.mem_filter] at hc
      exact hc.2
    | some y =>
      rw [themeCampRead_year] at h
      split at h
      · exact Option.noConfusion h
      · split at h <;> cases h <;> simp [List.mem_filter] at hc <;> tauto
  · intro db eid st et res h e he
    rw [playaEventRead_noyear] at h
    cases h
    simp [List.mem_filter] at he
    tauto
  · intro db yy res h e he
    rw [playaEventRead_listing] at h
    split at h
    · exact Option.noConfusion h
    · cases h
      simp [List.mem_filter] at he
      tauto
  · intro db yy eid st et res h e he
    rw [playaEventRead_byid] at h
    split at h
    · exact Option.noConfusion h
    · cases h
      simp [List.mem_filter] at he
      tauto

/-- Witness for `c1_amended` at a concrete database: the camp returned by a
public year listing is `list_online`. -/
theorem c1_amended_witness : visCamp.list_online = true :=
  c1_amended.1 visDB (some "2012") none [visCamp] (by rfl) visCamp (by simp)

/-! ## Helper lemmas about save -/

theorem saveEvent_events_of_mem (db : DB) (obj e0 : PlayaEvent)
    (hmem : e0 ∈ db.events) (h0 : e0.id = obj.id) :
    (saveEvent db obj).events
      = db.events.map (fun e => if e.id == obj.id then obj else e) := by
  unfold saveEvent
  have hany : db.events.any (fun e => e.id == obj.id) = true :=
    List.any_eq_true.mpr ⟨e0, hmem, by simp [h0]⟩
  simp [hany]

theorem saveCamp_camps_of_mem (db : DB) (obj c0 : ThemeCamp)
    (hmem : c0 ∈ db.camps) (h0 : c0.id = obj.id) :
    (saveCamp db obj).camps
      = db.camps.map (fun c => if c.id == obj.id then obj else c) := by
  unfold saveCamp
  have hany : db.camps.any (fun c => c.id == obj.id) = true :=
    List.any_eq_true.mpr ⟨c0, hmem, by simp [h0]⟩
  simp [hany]

theorem saveEvent_years (db : DB) (obj : PlayaEvent) :
    (saveEvent db obj).years = db.years := by
  unfold saveEvent; split <;> rfl

theorem saveEvent_occurrences (db : DB) (obj : PlayaEvent) :
    (saveEvent db obj).occurrences = db.occurrences := by
  unfold saveEvent; split <;> rfl

theorem saveCamp_years (db : DB) (obj : ThemeCamp) :
    (saveCamp db obj).years = db.years := by
  unfold saveCamp; split <;> rfl

/-- After an event delete marks the target Rejected, no event with the
target's pk passes a `moderation == "A"` filter. -/
theorem saveRejected_not_accepted (db : DB) (eid : Nat) (e : PlayaEvent)
    (hfind : db.events.find? (fun x => x.id == eid) = some e) :
    ∀ x ∈ (saveEvent db { e with moderation := "R" }).events,
      x.moderation = "A" → x.id ≠ eid := by
  intro x hx hmod
  have hid : e.id = eid := by simpa using List.find?_some hfind
  have hmem : e ∈ db.events := List.mem_of_find?_eq_some hfind
  rw [saveEvent_events_of_mem db _ e hmem (by simp)] at hx
  simp only [List.mem_map] at hx
  obtain ⟨src, hsrc, hmap⟩ := hx
  by_cases hc : (src.id == ({ e with moderation := "R" } : PlayaEvent).id) = true
  · rw [if_pos hc] at hmap
    rw [← hmap] at hmod
    simp at hmod
  · rw [if_neg (by simpa using hc)] at hmap
    simp at hc
    intro hxe
    exact hc (by rw [← hmap] at hxe; rw [hxe]; simp [hid])

/-! ## Claim C2 -/

/-- Claim C2 as frozen is false on the code: `ThemeCampHandler.delete` sets
`deleted=True`, but `BaseThemeCampHandler.read` filters only on
`list_online` and never consults `deleted`.  Concretely: deleting `visCamp`
succeeds, yet the camp (now with `deleted=true`) still appears in the public
year listing. -/
theorem c2_counterexample :
    (themeCampDelete visDB true (some "2012") (some 7)).1
      = .deletedOk "Camp deleted #7" ∧
    themeCampRead (themeCampDelete visDB true (some "2012") (some 7)).2
      (some "2012") none = some [{ visCamp with deleted := true }] :=
  ⟨rfl, rfl⟩

/-- Claim C2 amended: deleting a ThemeCamp sets `deleted := true` (leaving
`list_online` unchanged) and reports success; because public camp reads
filter only on `list_online`, the camp is NOT hidden from public reads (see
`c2_counterexample`), though the row does remain in the table for the
unfiltered `all_objects` manager.  Deleting an Event sets moderation to
Rejected, after which it no longer appears in the public listings (no-year
or year, which filter `moderation='A'`) — though it is still returned by the
public by-id read when its `list_online` is true. -/
theorem c2_amended :
    (∀ db yy cid camp,
       (themeCampObjects db).find? (fun c => c.id == cid) = some camp →
       themeCampDelete db true yy (some cid)
         = (.deletedOk ("Camp deleted #" ++ toString cid),
            saveCamp db { camp with deleted := true }) ∧
       camp.list_online = true ∧
       { camp with deleted := true } ∈ (saveCamp db { camp with deleted := true }).camps) ∧
    (∀ db yy eid e,
       db.events.find? (fun x => x.id == eid) = some e →
       playaEventDelete db true yy (some eid)
         = (.deletedOk ("Event rejected #" ++ toString eid),
            saveEvent db { e with moderation := "R" }) ∧
       (∀ res, playaEventRead (saveEvent db { e with moderation := "R" })
            none none none none = some res → ∀ x ∈ res, x.id ≠ eid) ∧
       (∀ yy2 res, playaEventRead (saveEvent db { e with moderation := "R" })
            (some yy2) none none none = some res → ∀ x ∈ res, x.id ≠ eid)) := by
  constructor
  · intro db yy cid camp hfind
    have hmemf : camp ∈ themeCampObjects db := List.mem_of_find?_eq_some hfind
    have hmem : camp ∈ db.camps := (List.mem_filter.mp hmemf).1
    have honline : camp.list_online = true := by
      simpa using (List.mem_filter.mp hmemf).2
    refine ⟨?_, honline, ?_⟩
    · unfold themeCampDelete
      simp [hfind]
    · rw [saveCamp_camps_of_mem db _ camp hmem (by simp)]
      exact List.mem_map.mpr ⟨camp, hmem, by simp⟩
  · intro db yy eid e hfind
    refine ⟨?_, ?_, ?_⟩
    · unfold playaEventDelete
      simp [hfind]
    · intro res h x hx
      rw [playaEventRead_noyear] at h
      cases h
      have := List.mem_filter.mp hx
      refine saveRejected_not_accepted db eid e hfind x this.1 ?_
      have h2 := this.2
      simp at h2
      exact h2.1
    · intro yy2 res h x hx
      rw [playaEventRead_listing] at h
      split at h
      · exact Option.noConfusion h
      · cases h
        have := List.mem_filter.mp hx
        refine saveRejected_not_accepted db eid e hfind x this.1 ?_
        have h2 := this.2
        simp at h2
        exact h2.1.2

/-- Witness for `c2_amended` at a concrete database: deleting event pk 5 of
`visDB` yields the rejected-save state. -/
theorem c2_amended_witness :
    playaEventDelete visDB true (some "2012") (some 5)
      = (.deletedOk "Event rejected #5",
         saveEvent visDB { accEvent with moderation := "R" }) :=
  (c2_amended.2 visDB (some "2012") 5 accEvent (by rfl)).1

/-! ## Claim C5: errors leave the database untouched -/

theorem eventCU_error_frame (db : DB) (a : Bool) (m : String) (p : FieldMap)
    (u : Nat) (yy : Option String) (eid : Option Nat) (r : ApiResponse) (db2 : DB)
    (h : playaEventCreateOrUpdate db a m p u yy eid = some (r, db2))
    (herr : r.isError = true) : db2 = db := by
  unfold playaEventCreateOrUpdate at h
  split at h
  · cases h; rfl
  · split at h
    · cases h; rfl
    · split at h
      · cases h; rfl
      · split at h
        · exact Option.noConfusion h
        · cases h; rfl
        · split at h <;> cases h <;> simp [ApiResponse.isError] at herr

theorem campCU_error_frame (db : DB) (a : Bool) (m : String) (p : FieldMap)
    (yy : Option String) (cid : Option Nat) (r : ApiResponse) (db2 : DB)
    (h : themeCampCreateOrUpdate db a m p yy cid = some (r, db2))
    (herr : r.isError = true) : db2 = db := by
  unfold themeCampCreateOrUpdate at h
  split at h
  · cases h; rfl
  · split at h
    · cases h; rfl
    · split at h
      · cases h; rfl
      · split at h
        · exact Option.noConfusion h
        · cases h; rfl
        · split at h <;> cases h <;> simp [ApiResponse.isError] at herr

/-- Claim C5: for every Event or ThemeCamp create/update invocation, if any
step produces an error response (permission denied, bad verb, empty payload,
or any reference-not-found), the database is exactly what it was before the
call — nothing is persisted, because `obj.save()` is only reached after all
validation steps have succeeded. -/
theorem c5_no_partial_persistence :
    (∀ db a m p u yy eid r db2,
       playaEventCreateOrUpdate db a m p u yy eid = some (r, db2) →
       r.isError = true → db2 = db) ∧
    (∀ db a m p yy cid r db2,
       themeCampCreateOrUpdate db a m p yy cid = some (r, db2) →
       r.isError = true → db2 = db) :=
  ⟨fun db a m p u yy eid r db2 h herr => eventCU_error_frame db a m p u yy eid r db2 h herr,
   fun db a m p yy cid r db2 h herr => campCU_error_frame db a m p yy cid r db2 h herr⟩

/-- Witness for `c5_no_partial_persistence`: an event update referencing the
unknown year "1999" fails with a not-found error and leaves the concrete
database `noYearDB` unchanged. -/
theorem c5_witness :
    playaEventCreateOrUpdate noYearDB true "POST" [("year", "1999")] 4 none none
      = some (.notHere "No such year: 1999", noYearDB) ∧ noYearDB = noYearDB :=
  ⟨by rfl,
   c5_no_partial_persistence.1 noYearDB true "POST" [("year", "1999")] 4 none none
     (.notHere "No such year: 1999") noYearDB (by rfl) (by rfl)⟩

/-! ## Claim C3 -/

/-- Claim C3: for the Event read with a year given (and no id), the
start_time/end_time query parameters narrow the result exactly as the source
does — both bounds: events owning an occurrence with start_time ≥ st and
end_time ≤ et (on the same occurrence); one bound: that bound alone; no
bounds: the year listing (with its baked-in moderation/list_online filter).
Matching goes through the occurrence-owning event ids, which is how the
definition computes it. -/
theorem c3_time_filtering :
    ∀ db yy year, db.years.find? (fun y => y.year == yy) = some year →
    (∀ st et res, playaEventRead db (some yy) none (some st) (some et) = some res →
       ∀ e, e ∈ res ↔ e ∈ db.events ∧ ∃ o ∈ db.occurrences,
         o.eventId = e.id ∧ st ≤ o.start_time ∧ o.end_time ≤ et) ∧
    (∀ st res, playaEventRead db (some yy) none (some st) none = some res →
       ∀ e, e ∈ res ↔ e ∈ db.events ∧ ∃ o ∈ db.occurrences,
         o.eventId = e.id ∧ st ≤ o.start_time) ∧
    (∀ et res, playaEventRead db (some yy) none none (some et) = some res →
       ∀ e, e ∈ res ↔ e ∈ db.events ∧ ∃ o ∈ db.occurrences,
         o.eventId = e.id ∧ o.end_time ≤ et) ∧
    (∀ res, playaEventRead db (some yy) none none none = some res →
       ∀ e, e ∈ res ↔ e ∈ db.events ∧ e.yearId = year.id ∧
         e.moderation = "A" ∧ e.list_online = true) := by
  intro db yy year hy
  refine ⟨?_, ?_, ?_, ?_⟩
  · intro st et res h e
    rw [playaEventRead_both_times, hy] at h
    cases h
    simp only [List.mem_filter, List.elem_iff, List.mem_map, decide_eq_true_eq,
      Bool.and_eq_true, beq_iff_eq]
    constructor
    · rintro ⟨hmem, o, ⟨ho, hst, het⟩, hoid⟩
      exact ⟨hmem, o, ho, hoid, hst, het⟩
    · rintro ⟨hmem, o, ho, hoid, hst, het⟩
      exact ⟨hmem, o, ⟨ho, hst, het⟩, hoid⟩
  · intro st res h e
    rw [playaEventRead_start_time, hy] at h
    cases h
    simp only [List.mem_filter, List.elem_iff, List.mem_map, decide_eq_true_eq,
      Bool.and_eq_true, beq_iff_eq]
    constructor
    · rintro ⟨hmem, o, ⟨ho, hst⟩, hoid⟩
      exact ⟨hmem, o, ho, hoid, hst⟩
    · rintro ⟨hmem, o, ho, hoid, hst⟩
      exact ⟨hmem, o, ⟨ho, hst⟩, hoid⟩
  · intro et res h e
    rw [playaEventRead_end_time, hy] at h
    cases h
    simp only [List.mem_filter, List.elem_iff, List.mem_map, decide_eq_true_eq,
      Bool.and_eq_true, beq_iff_eq]
    constructor
    · rintro ⟨hmem, o, ⟨ho, het⟩, hoid⟩
      exact ⟨hmem, o, ho, hoid, het⟩
    · rintro ⟨hmem, o, ho, hoid, het⟩
      exact ⟨hmem, o, ⟨ho, het⟩, hoid⟩
  · intro res h e
    rw [playaEventRead_listing, hy] at h
    cases h
    simp only [List.mem_filter, Bool.and_eq_true, beq_iff_eq]
    tauto

/-- Witness for `c3_time_filtering` at a concrete database: with both bounds
1 and 10 given, `accEvent` is in the result because `accOcc` (2, 8) is one of
its occurrences. -/
theorem c3_witness :
    accEvent ∈ [accEvent] ↔ accEvent ∈ occDB.events ∧ ∃ o ∈ occDB.occurrences,
      o.eventId = accEvent.id ∧ 1 ≤ o.start_time ∧ o.end_time ≤ 10 :=
  (c3_time_filtering occDB "2012" { id := 1, year := "2012" } (by rfl)).1
    1 10 [accEvent] (by rfl) accEvent

/-! ## Frame and unfolding lemmas for the write-pipeline stages -/

theorem applyEventTextFields_frame (d : FieldMap) (o : PlayaEvent) :
    (applyEventTextFields d o).id = o.id ∧
    (applyEventTextFields d o).yearId = o.yearId ∧
    (applyEventTextFields d o).moderation = o.moderation ∧
    (applyEventTextFields d o).check_location = o.check_location ∧
    (applyEventTextFields d o).all_day = o.all_day ∧
    (applyEventTextFields d o).list_online = o.list_online ∧
    (applyEventTextFields d o).list_contact_online = o.list_contact_online := by
  unfold applyEventTextFields
  cases fmGet d "print_description" <;> cases fmGet d "url" <;>
    cases fmGet d "contact_email" <;> cases fmGet d "other_location" <;>
    cases fmGet d "slug" <;> simp

theorem applyEventModeration_frame (d : FieldMap) (o : PlayaEvent) :
    (applyEventModeration d o).id = o.id ∧
    (applyEventModeration d o).yearId = o.yearId ∧
    (applyEventModeration d o).check_location = o.check_location ∧
    (applyEventModeration d o).all_day = o.all_day ∧
    (applyEventModeration d o).list_online = o.list_online ∧
    (applyEventModeration d o).list_contact_online = o.list_contact_online := by
  unfold applyEventModeration
  split
  · simp
  · split <;> simp

theorem applyEventModeration_moderation (d : FieldMap) (o : PlayaEvent) :
    (applyEventModeration d o).moderation
      = (match fmGet d "moderation" with
         | none => o.moderation
         | some m =>
           if strUpper m == "U" || strUpper m == "A" || strUpper m == "R" then
             strUpper m
           else
             o.moderation) := by
  unfold applyEventModeration
  split
  · simp
  · split <;> simp

theorem applyHostedByCamp_ok_frame (db : DB) (d : FieldMap) (o o' : PlayaEvent)
    (h : applyHostedByCamp db d o = .ok o') :
    o'.id = o.id ∧ o'.yearId = o.yearId ∧ o'.moderation = o.moderation ∧
    o'.check_location = o.check_location ∧ o'.all_day = o.all_day ∧
    o'.list_online = o.list_online ∧
    o'.list_contact_online = o.list_contact_online := by
  unfold applyHostedByCamp at h
  split at h
  · cases h; simp
  · split at h
    · exact Except.noConfusion h
    · exact Except.noConfusion h
    · cases h; simp

theorem applyLocatedAtArt_ok_frame (db : DB) (d : FieldMap) (o o' : PlayaEvent)
    (h : applyLocatedAtArt db d o = .ok o') :
    o'.id = o.id ∧ o'.yearId = o.yearId ∧ o'.moderation = o.moderation ∧
    o'.check_location = o.check_location ∧ o'.all_day = o.all_day ∧
    o'.list_online = o.list_online ∧
    o'.list_contact_online = o.list_contact_online := by
  unfold applyLocatedAtArt at h
  split at h
  · cases h; simp
  · split at h
    · exact Except.noConfusion h
    · exact Except.noConfusion h
    · cases h; simp

theorem applyEventBools_spec (d : FieldMap) (o : PlayaEvent) :
    (applyEventBools d o).check_location
      = (fmGet d "check_location").elim o.check_location coerceBool ∧
    (applyEventBools d o).all_day
      = (fmGet d "all_day").elim o.all_day coerceBool ∧
    (applyEventBools d o).list_online
      = (fmGet d "list_online").elim o.list_online coerceBool ∧
    (applyEventBools d o).list_contact_online
      = (fmGet d "list_contact_online").elim o.list_contact_online coerceBool ∧
    (applyEventBools d o).id = o.id ∧
    (applyEventBools d o).yearId = o.yearId ∧
    (applyEventBools d o).moderation = o.moderation := by
  unfold applyEventBools
  cases fmGet d "check_location" <;> cases fmGet d "all_day" <;>
    cases fmGet d "list_online" <;> cases fmGet d "list_contact_online" <;> simp

theorem applyHostedByCamp_none (db : DB) (d : FieldMap) (o : PlayaEvent)
    (h : fmGet d "hosted_by_camp" = none) :
    applyHostedByCamp db d o = .ok o := by
  unfold applyHostedByCamp
  rw [h]

theorem applyLocatedAtArt_none (db : DB) (d : FieldMap) (o : PlayaEvent)
    (h : fmGet d "located_at_art" = none) :
    applyLocatedAtArt db d o = .ok o := by
  unfold applyLocatedAtArt
  rw [h]

/-- The event pipeline on the update path (target found by pk): the year is
stripped from the map, so the year-resolution stage is a no-op and the
remaining stages run on the found object. -/
theorem eventPipeline_update (db : DB) (u : Nat) (data : FieldMap) (eid : Nat)
    (e : PlayaEvent)
    (hfind : db.events.find? (fun x => x.id == eid) = some e) :
    eventPipeline db u data (some eid)
      = (match applyHostedByCamp db (fmDel (fmDel (fmDel data "year") "id") "pk")
            (applyEventModeration (fmDel (fmDel (fmDel data "year") "id") "pk")
              (applyEventTextFields (fmDel (fmDel (fmDel data "year") "id") "pk") e)) with
         | .error h => .error h
         | .ok obj3 =>
           match applyLocatedAtArt db (fmDel (fmDel (fmDel data "year") "id") "pk") obj3 with
           | .error h => .error h
           | .ok obj4 =>
             .ok (applyEventBools (fmDel (fmDel (fmDel data "year") "id") "pk") obj4)) := by
  have hyear : fmGet (fmDel (fmDel (fmDel data "year") "id") "pk") "year" = none := by
    rw [fmGet_fmDel_ne _ _ _ (by decide), fmGet_fmDel_ne _ _ _ (by decide),
      fmGet_fmDel_self]
  simp only [eventPipeline, resolveEventTarget, hfind, applyEventYear, hyear]

theorem getByPk_error {α : Type} (qs : List α) (pkOf : α → Nat) (key : String)
    (h : Halt) (he : getByPk qs pkOf key = .error h) : h = .crash := by
  unfold getByPk at he
  split at he
  · cases he; rfl
  · exact Except.noConfusion he

theorem applyHostedByCamp_error_shape (db : DB) (d : FieldMap) (o : PlayaEvent)
    (h : Halt) (he : applyHostedByCamp db d o = .error h) :
    h = .crash ∨ ∃ s, h = .resp (.notHere s) := by
  unfold applyHostedByCamp at he
  cases hf : fmGet d "hosted_by_camp" with
  | none =>
    simp only [hf] at he
    exact Except.noConfusion he
  | some key =>
    cases hg : getByPk (themeCampObjects db) (fun c => c.id) key with
    | error h2 =>
      simp only [hf, hg] at he
      cases he
      exact Or.inl (getByPk_error _ _ _ _ hg)
    | ok val =>
      cases val with
      | none =>
        simp only [hf, hg] at he
        cases he
        exact Or.inr ⟨_, rfl⟩
      | some camp =>
        simp only [hf, hg] at he
        exact Except.noConfusion he

theorem applyLocatedAtArt_error_shape (db : DB) (d : FieldMap) (o : PlayaEvent)
    (h : Halt) (he : applyLocatedAtArt db d o = .error h) :
    h = .crash ∨ ∃ s, h = .resp (.notHere s) := by
  unfold applyLocatedAtArt at he
  cases hf : fmGet d "located_at_art" with
  | none =>
    simp only [hf] at he
    exact Except.noConfusion he
  | some key =>
    cases hg : getByPk db.arts (fun a => a.id) key with
    | error h2 =>
      simp only [hf, hg] at he
      cases he
      exact Or.inl (getByPk_error _ _ _ _ hg)
    | ok val =>
      cases val with
      | none =>
        simp only [hf, hg] at he
        cases he
        exact Or.inr ⟨_, rfl⟩
      | some art =>
        simp only [hf, hg] at he
        exact Except.noConfusion he

/-- Lands every row carrying the saved object's pk on the saved object. -/
theorem saveEvent_id_lookup (db : DB) (obj e0 : PlayaEvent)
    (hmem : e0 ∈ db.events) (h0 : e0.id = obj.id) :
    ∀ x ∈ (saveEvent db obj).events, x.id = obj.id → x = obj := by
  intro x hx hxid
  rw [saveEvent_events_of_mem db obj e0 hmem h0] at hx
  obtain ⟨src, hsrc, hmap⟩ := List.mem_map.mp hx
  by_cases hc : (src.id == obj.id) = true
  · rw [if_pos hc] at hmap; exact hmap.symm
  · rw [if_neg (by simpa using hc)] at hmap
    simp only [beq_iff_eq] at hc
    rw [← hmap] at hxid
    exact absurd hxid hc

theorem saveCamp_id_lookup (db : DB) (obj c0 : ThemeCamp)
    (hmem : c0 ∈ db.camps) (h0 : c0.id = obj.id) :
    ∀ x ∈ (saveCamp db obj).camps, x.id = obj.id → x = obj := by
  intro x hx hxid
  rw [saveCamp_camps_of_mem db obj c0 hmem h0] at hx
  obtain ⟨src, hsrc, hmap⟩ := List.mem_map.mp hx
  by_cases hc : (src.id == obj.id) = true
  · rw [if_pos hc] at hmap; exact hmap.symm
  · rw [if_neg (by simpa using hc)] at hmap
    simp only [beq_iff_eq] at hc
    rw [← hmap] at hxid
    exact absurd hxid hc

/-- Backward shape of a successful event update: the pipeline ran its two
fallible reference stages and the new database is the save of the fully
updated object. -/
theorem event_update_success (db : DB) (a : Bool) (m : String) (p : FieldMap)
    (u : Nat) (yy : Option String) (eid : Nat) (e : PlayaEvent) (r : ApiResponse)
    (db2 : DB)
    (hfind : db.events.find? (fun x => x.id == eid) = some e)
    (hrun : playaEventCreateOrUpdate db a m p u yy (some eid) = some (r, db2))
    (hok : r.isError = false) :
    ∃ obj3 obj4,
      applyHostedByCamp db (updData p yy)
          (applyEventModeration (updData p yy) (applyEventTextFields (updData p yy) e))
        = .ok obj3 ∧
      applyLocatedAtArt db (updData p yy) obj3 = .ok obj4 ∧
      db2 = saveEvent db (applyEventBools (updData p yy) obj4) := by
  simp only [updData]
  unfold playaEventCreateOrUpdate at hrun
  split at hrun
  · cases hrun; simp [ApiResponse.isError] at hok
  · split at hrun
    · cases hrun; simp [ApiResponse.isError] at hok
    · split at hrun
      · cases hrun; simp [ApiResponse.isError] at hok
      · rw [eventPipeline_update db u (injectYear p yy) eid e hfind] at hrun
        cases hA : applyHostedByCamp db
            (fmDel (fmDel (fmDel (injectYear p yy) "year") "id") "pk")
            (applyEventModeration (fmDel (fmDel (fmDel (injectYear p yy) "year") "id") "pk")
              (applyEventTextFields (fmDel (fmDel (fmDel (injectYear p yy) "year") "id") "pk")
                e)) with
        | error h =>
          rcases applyHostedByCamp_error_shape _ _ _ _ hA with hcr | ⟨s, hs⟩
          · rw [hcr] at hA
            simp only [hA] at hrun
            exact Option.noConfusion hrun
          · rw [hs] at hA
            simp only [hA] at hrun
            cases hrun
            simp [ApiResponse.isError] at hok
        | ok obj3 =>
          simp only [hA] at hrun
          cases hB : applyLocatedAtArt db
              (fmDel (fmDel (fmDel (injectYear p yy) "year") "id") "pk") obj3 with
          | error h =>
            rcases applyLocatedAtArt_error_shape _ _ _ _ hB with hcr | ⟨s, hs⟩
            · rw [hcr] at hB
              simp only [hB] at hrun
              exact Option.noConfusion hrun
            · rw [hs] at hB
              simp only [hB] at hrun
              cases hrun
              simp [ApiResponse.isError] at hok
          | ok obj4 =>
            simp only [hB] at hrun
            refine ⟨obj3, obj4, rfl, hB, ?_⟩
            split at hrun <;> cases hrun <;> rfl

/-- Forward run of an event update whose field map carries no
`hosted_by_camp`/`located_at_art` reference. -/
theorem event_update_run (db : DB) (p : FieldMap) (u : Nat) (yy : Option String)
    (eid : Nat) (e : PlayaEvent)
    (hfind : db.events.find? (fun x => x.id == eid) = some e)
    (hcamp : fmGet p "hosted_by_camp" = none)
    (hart : fmGet p "located_at_art" = none)
    (hp : p ≠ []) :
    playaEventCreateOrUpdate db true "PUT" p u yy (some eid)
      = some (.allOk e.id,
          saveEvent db (applyEventBools (updData p yy)
            (applyEventModeration (updData p yy)
              (applyEventTextFields (updData p yy) e)))) := by
  have hcamp2 : fmGet (updData p yy) "hosted_by_camp" = none := by
    rw [fmGet_updData p yy _ (by decide) (by decide) (by decide)]; exact hcamp
  have hart2 : fmGet (updData p yy) "located_at_art" = none := by
    rw [fmGet_updData p yy _ (by decide) (by decide) (by decide)]; exact hart
  have hid : (applyEventBools (updData p yy) (applyEventModeration (updData p yy)
      (applyEventTextFields (updData p yy) e))).id = e.id := by
    obtain ⟨h1, -⟩ := applyEventTextFields_frame (updData p yy) e
    obtain ⟨h2, -⟩ := applyEventModeration_frame (updData p yy)
      (applyEventTextFields (updData p yy) e)
    obtain ⟨-, -, -, -, h3, -⟩ := applyEventBools_spec (updData p yy)
      (applyEventModeration (updData p yy) (applyEventTextFields (updData p yy) e))
    rw [h3, h2, h1]
  simp only [updData] at hcamp2 hart2 hid ⊢
  unfold playaEventCreateOrUpdate
  rw [if_neg (by decide), if_neg (by decide),
    if_neg (by simp [injectYear_isEmpty_false p yy hp])]
  rw [eventPipeline_update db u (injectYear p yy) eid e hfind]
  simp only [applyHostedByCamp_none db _ _ hcamp2]
  simp only [applyLocatedAtArt_none db _ _ hart2]
  simp [hid]

theorem applyCampTextFields_frame (d : FieldMap) (o : ThemeCamp) :
    (applyCampTextFields d o).id = o.id ∧
    (applyCampTextFields d o).yearId = o.yearId ∧
    (applyCampTextFields d o).list_online = o.list_online ∧
    (applyCampTextFields d o).deleted = o.deleted := by
  unfold applyCampTextFields
  cases fmGet d "name" <;> cases fmGet d "description" <;> cases fmGet d "url" <;>
    cases fmGet d "hometown" <;> cases fmGet d "location_string" <;>
    cases fmGet d "slug" <;> simp

theorem applyCampBools_spec (d : FieldMap) (o : ThemeCamp) :
    (applyCampBools d o).list_online
      = (fmGet d "list_online").elim o.list_online coerceBool ∧
    (applyCampBools d o).id = o.id ∧
    (applyCampBools d o).yearId = o.yearId ∧
    (applyCampBools d o).deleted = o.deleted := by
  unfold applyCampBools
  cases fmGet d "list_online" <;> simp

theorem applyCircularStreet_ok_frame (db : DB) (d : FieldMap) (o o' : ThemeCamp)
    (h : applyCircularStreet db d o = .ok o') :
    o'.id = o.id ∧ o'.yearId = o.yearId ∧ o'.list_online = o.list_online ∧
    o'.deleted = o.deleted := by
  unfold applyCircularStreet at h
  split at h
  · cases h; simp
  · split at h
    · exact Except.noConfusion h
    · exact Except.noConfusion h
    · cases h; simp

theorem applyTimeStreet_ok_eq (db : DB) (d : FieldMap) (o o' : ThemeCamp)
    (h : applyTimeStreet db d o = .ok o') : o' = o := by
  unfold applyTimeStreet at h
  split at h
  · cases h; rfl
  · split at h
    · exact Except.noConfusion h
    · exact Except.noConfusion h
    · cases h; rfl

theorem applyCircularStreet_none (db : DB) (d : FieldMap) (o : ThemeCamp)
    (h : fmGet d "circular_street" = none) :
    applyCircularStreet db d o = .ok o := by
  unfold applyCircularStreet
  rw [h]

theorem applyTimeStreet_none (db : DB) (d : FieldMap) (o : ThemeCamp)
    (h : fmGet d "time_street" = none) :
    applyTimeStreet db d o = .ok o := by
  unfold applyTimeStreet
  rw [h]

theorem applyCircularStreet_error_shape (db : DB) (d : FieldMap) (o : ThemeCamp)
    (h : Halt) (he : applyCircularStreet db d o = .error h) :
    h = .crash ∨ ∃ s, h = .resp (.notHere s) := by
  unfold applyCircularStreet at he
  cases hf : fmGet d "circular_street" with
  | none =>
    simp only [hf] at he
    exact Except.noConfusion he
  | some key =>
    cases hg : getByPk db.cstreets (fun s => s.id) key with
    | error h2 =>
      simp only [hf, hg] at he
      cases he
      exact Or.inl (getByPk_error _ _ _ _ hg)
    | ok val =>
      cases val with
      | none =>
        simp only [hf, hg] at he
        cases he
        exact Or.inr ⟨_, rfl⟩
      | some street =>
        simp only [hf, hg] at he
        exact Except.noConfusion he

theorem applyTimeStreet_error_shape (db : DB) (d : FieldMap) (o : ThemeCamp)
    (h : Halt) (he : applyTimeStreet db d o = .error h) :
    h = .crash ∨ ∃ s, h = .resp (.notHere s) := by
  unfold applyTimeStreet at he
  cases hf : fmGet d "time_street" with
  | none =>
    simp only [hf] at he
    exact Except.noConfusion he
  | some key =>
    cases hg : getByPk db.tstreets (fun s => s.id) key with
    | error h2 =>
      simp only [hf, hg] at he
      cases he
      exact Or.inl (getByPk_error _ _ _ _ hg)
    | ok val =>
      cases val with
      | none =>
        simp only [hf, hg] at he
        cases he
        exact Or.inr ⟨_, rfl⟩
      | some street =>
        simp only [hf, hg] at he
        exact Except.noConfusion he

/-- The camp pipeline on the update path (target found by pk through the
filtered default manager): the year is stripped from the map, so the
year-resolution stage is a no-op. -/
theorem campPipeline_update (db : DB) (data : FieldMap) (cid : Nat)
    (camp : ThemeCamp)
    (hfind : (themeCampObjects db).find? (fun c => c.id == cid) = some camp) :
    campPipeline db data (some cid)
      = (match applyCircularStreet db
            (fmDel (fmDel (fmDel (fmDel (fmDel data "year") "id") "pk") "bm_fm_id")
              "deleted") camp with
         | .error h => .error h
         | .ok obj2 =>
           match applyTimeStreet db
               (fmDel (fmDel (fmDel (fmDel (fmDel data "year") "id") "pk") "bm_fm_id")
                 "deleted") obj2 with
           | .error h => .error h
           | .ok obj3 =>
             .ok (applyCampBools
               (fmDel (fmDel (fmDel (fmDel (fmDel data "year") "id") "pk") "bm_fm_id")
                 "deleted")
               (applyCampTextFields
                 (fmDel (fmDel (fmDel (fmDel (fmDel data "year") "id") "pk") "bm_fm_id")
                   "deleted") obj3))) := by
  have hyear : fmGet
      (fmDel (fmDel (fmDel (fmDel (fmDel data "year") "id") "pk") "bm_fm_id") "deleted")
      "year" = none := by
    rw [fmGet_fmDel_ne _ _ _ (by decide), fmGet_fmDel_ne _ _ _ (by decide),
      fmGet_fmDel_ne _ _ _ (by decide), fmGet_fmDel_ne _ _ _ (by decide),
      fmGet_fmDel_self]
  simp only [campPipeline, resolveCampTarget, hfind, applyCampYear, hyear]

/-- Backward shape of a successful camp update. -/
theorem camp_update_success (db : DB) (a : Bool) (m : String) (p : FieldMap)
    (yy : Option String) (cid : Nat) (camp : ThemeCamp) (r : ApiResponse) (db2 : DB)
    (hfind : (themeCampObjects db).find? (fun c => c.id == cid) = some camp)
    (hrun : themeCampCreateOrUpdate db a m p yy (some cid) = some (r, db2))
    (hok : r.isError = false) :
    ∃ obj2 obj3,
      applyCircularStreet db (updCampData p yy) camp = .ok obj2 ∧
      applyTimeStreet db (updCampData p yy) obj2 = .ok obj3 ∧
      db2 = saveCamp db (applyCampBools (updCampData p yy)
        (applyCampTextFields (updCampData p yy) obj3)) := by
  simp only [updCampData]
  unfold themeCampCreateOrUpdate at hrun
  split at hrun
  · cases hrun; simp [ApiResponse.isError] at hok
  · split at hrun
    · cases hrun; simp [ApiResponse.isError] at hok
    · split at hrun
      · cases hrun; simp [ApiResponse.isError] at hok
      · rw [campPipeline_update db (injectYear p yy) cid camp hfind] at hrun
        cases hA : applyCircularStreet db
            (fmDel (fmDel (fmDel (fmDel (fmDel (injectYear p yy) "year") "id") "pk")
              "bm_fm_id") "deleted") camp with
        | error h =>
          rcases applyCircularStreet_error_shape _ _ _ _ hA with hcr | ⟨s, hs⟩
          · rw [hcr] at hA
            simp only [hA] at hrun
            exact Option.noConfusion hrun
          · rw [hs] at hA
            simp only [hA] at hrun
            cases hrun
            simp [ApiResponse.isError] at hok
        | ok obj2 =>
          simp only [hA] at hrun
          cases hB : applyTimeStreet db
              (fmDel (fmDel (fmDel (fmDel (fmDel (injectYear p yy) "year") "id") "pk")
                "bm_fm_id") "deleted") obj2 with
          | error h =>
            rcases applyTimeStreet_error_shape _ _ _ _ hB with hcr | ⟨s, hs⟩
            · rw [hcr] at hB
              simp only [hB] at hrun
              exact Option.noConfusion hrun
            · rw [hs] at hB
              simp only [hB] at hrun
              cases hrun
              simp [ApiResponse.isError] at hok
          | ok obj3 =>
            simp only [hB] at hrun
            refine ⟨obj2, obj3, rfl, hB, ?_⟩
            split at hrun <;> cases hrun <;> rfl

/-- Forward run of a camp update whose field map carries no
`circular_street`/`time_street` reference. -/
theorem camp_update_run (db : DB) (p : FieldMap) (yy : Option String)
    (cid : Nat) (camp : ThemeCamp)
    (hfind : (themeCampObjects db).find? (fun c => c.id == cid) = some camp)
    (hcirc : fmGet p "circular_street" = none)
    (htime : fmGet p "time_street" = none)
    (hp : p ≠ []) :
    themeCampCreateOrUpdate db true "PUT" p yy (some cid)
      = some (.allOk camp.id,
          saveCamp db (applyCampBools (updCampData p yy)
            (applyCampTextFields (updCampData p yy) camp))) := by
  have hcirc2 : fmGet (updCampData p yy) "circular_street" = none := by
    rw [fmGet_updCampData p yy _ (by decide) (by decide) (by decide) (by decide)
      (by decide)]
    exact hcirc
  have htime2 : fmGet (updCampData p yy) "time_street" = none := by
    rw [fmGet_updCampData p yy _ (by decide) (by decide) (by decide) (by decide)
      (by decide)]
    exact htime
  have hid : (applyCampBools (updCampData p yy)
      (applyCampTextFields (updCampData p yy) camp)).id = camp.id := by
    obtain ⟨h1, -⟩ := applyCampTextFields_frame (updCampData p yy) camp
    obtain ⟨-, h2, -⟩ := applyCampBools_spec (updCampData p yy)
      (applyCampTextFields (updCampData p yy) camp)
    rw [h2, h1]
  simp only [updCampData] at hcirc2 htime2 hid ⊢
  unfold themeCampCreateOrUpdate
  rw [if_neg (by decide), if_neg (by decide),
    if_neg (by simp [injectYear_isEmpty_false p yy hp])]
  rw [campPipeline_update db (injectYear p yy) cid camp hfind]
  simp only [applyCircularStreet_none db _ _ hcirc2]
  simp only [applyTimeStreet_none db _ _ htime2]
  simp [hid]

/-! ## Claim C4 -/

/-- Claim C4: updating an existing Event or ThemeCamp leaves its year
relation unchanged, even when the incoming field map carries a `year` value
(supplied directly or injected from the path) — the handlers strip `year`
from the map as soon as the update target is resolved.  The extra pre-state
hypothesis says all rows sharing the target's pk agree on its year (pks are
unique in a real database), which also covers the error paths where nothing
is written. -/
theorem c4_year_immutable :
    (∀ db a m p u yy eid e r db2,
       db.events.find? (fun x => x.id == eid) = some e →
       (∀ x ∈ db.events, x.id = e.id → x.yearId = e.yearId) →
       playaEventCreateOrUpdate db a m p u yy (some eid) = some (r, db2) →
       ∀ x ∈ db2.events, x.id = e.id → x.yearId = e.yearId) ∧
    (∀ db a m p yy cid camp r db2,
       (themeCampObjects db).find? (fun c => c.id == cid) = some camp →
       (∀ x ∈ db.camps, x.id = camp.id → x.yearId = camp.yearId) →
       themeCampCreateOrUpdate db a m p yy (some cid) = some (r, db2) →
       ∀ x ∈ db2.camps, x.id = camp.id → x.yearId = camp.yearId) := by
  constructor
  · intro db a m p u yy eid e r db2 hfind hpre hrun x hx hxid
    by_cases herr : r.isError = true
    · rw [eventCU_error_frame db a m p u yy (some eid) r db2 hrun herr] at hx
      exact hpre x hx hxid
    · obtain ⟨obj3, obj4, hA, hB, hdb2⟩ := event_update_success db a m p u yy eid e r
        db2 hfind hrun (by simpa using herr)
      obtain ⟨ht1, ht2, -⟩ := applyEventTextFields_frame (updData p yy) e
      obtain ⟨hm1, hm2, -⟩ := applyEventModeration_frame (updData p yy)
        (applyEventTextFields (updData p yy) e)
      obtain ⟨hA1, hA2, -⟩ := applyHostedByCamp_ok_frame db (updData p yy) _ obj3 hA
      obtain ⟨hB1, hB2, -⟩ := applyLocatedAtArt_ok_frame db (updData p yy) obj3 obj4 hB
      obtain ⟨-, -, -, -, hb1, hb2, -⟩ := applyEventBools_spec (updData p yy) obj4
      have hBid : (applyEventBools (updData p yy) obj4).id = e.id := by
        rw [hb1, hB1, hA1, hm1, ht1]
      have hByear : (applyEventBools (updData p yy) obj4).yearId = e.yearId := by
        rw [hb2, hB2, hA2, hm2, ht2]
      subst hdb2
      have hxB := saveEvent_id_lookup db (applyEventBools (updData p yy) obj4) e
        (List.mem_of_find?_eq_some hfind) hBid.symm x hx (by rw [hxid, ← hBid])
      rw [hxB, hByear]
  · intro db a m p yy cid camp r db2 hfind hpre hrun x hx hxid
    by_cases herr : r.isError = true
    · rw [campCU_error_frame db a m p yy (some cid) r db2 hrun herr] at hx
      exact hpre x hx hxid
    · obtain ⟨obj2, obj3, hA, hB, hdb2⟩ := camp_update_success db a m p yy cid camp r
        db2 hfind hrun (by simpa using herr)
      obtain ⟨hA1, hA2, -⟩ := applyCircularStreet_ok_frame db (updCampData p yy) camp
        obj2 hA
      have hB32 : obj3 = obj2 := applyTimeStreet_ok_eq db (updCampData p yy) obj2 obj3 hB
      obtain ⟨ht1, ht2, -⟩ := applyCampTextFields_frame (updCampData p yy) obj3
      obtain ⟨-, hb1, hb2, -⟩ := applyCampBools_spec (updCampData p yy)
        (applyCampTextFields (updCampData p yy) obj3)
      have hmemf := List.mem_of_find?_eq_some hfind
      have hmem : camp ∈ db.camps := (List.mem_filter.mp hmemf).1
      have hBid : (applyCampBools (updCampData p yy)
          (applyCampTextFields (updCampData p yy) obj3)).id = camp.id := by
        rw [hb1, ht1, hB32, hA1]
      have hByear : (applyCampBools (updCampData p yy)
          (applyCampTextFields (updCampData p yy) obj3)).yearId = camp.yearId := by
        rw [hb2, ht2, hB32, hA2]
      subst hdb2
      have hxB := saveCamp_id_lookup db _ camp hmem hBid.symm x hx (by rw [hxid, ← hBid])
      rw [hxB, hByear]

/-- Witness for `c4_year_immutable`: updating event pk 5 with a payload that
tries to set year "2031" leaves its year relation (year id 1) unchanged. -/
theorem c4_witness : accEvent.yearId = accEvent.yearId :=
  (c4_year_immutable.1 mismatchDB true "PUT" [("year", "2031")] 4 (some "2031") 5
    accEvent (.allOk 5) mismatchDB (by rfl) (by decide) (by rfl))
    accEvent (by decide) (by rfl)

/-! ## Claim C7 -/

/-- Claim C7: on an event update, a `moderation` value whose uppercasing is
one of U, A, R is stored; any other value is silently ignored — the
moderation state is left unchanged and the operation still succeeds
(response `allOk`, save performed).  The maps in this statement carry no
camp/art reference so that the two fallible lookup stages cannot fail for
unrelated reasons. -/
theorem c7_moderation_tolerant :
    ∀ db p u yy eid e v,
      db.events.find? (fun x => x.id == eid) = some e →
      fmGet p "hosted_by_camp" = none →
      fmGet p "located_at_art" = none →
      fmGet p "moderation" = some v →
      playaEventCreateOrUpdate db true "PUT" p u yy (some eid)
        = some (.allOk e.id, saveEvent db (applyEventBools (updData p yy)
            (applyEventModeration (updData p yy)
              (applyEventTextFields (updData p yy) e)))) ∧
      ∀ x ∈ (saveEvent db (applyEventBools (updData p yy)
            (applyEventModeration (updData p yy)
              (applyEventTextFields (updData p yy) e)))).events,
        x.id = e.id →
        x.moderation = (if strUpper v == "U" || strUpper v == "A" || strUpper v == "R"
                        then strUpper v else e.moderation) := by
  intro db p u yy eid e v hfind hcamp hart hmod
  have hp : p ≠ [] := by
    intro hnil
    rw [hnil] at hmod
    exact Option.noConfusion hmod
  refine ⟨event_update_run db p u yy eid e hfind hcamp hart hp, ?_⟩
  intro x hx hxid
  obtain ⟨ht1, -, ht3, -⟩ := applyEventTextFields_frame (updData p yy) e
  obtain ⟨hm1, -⟩ := applyEventModeration_frame (updData p yy)
    (applyEventTextFields (updData p yy) e)
  obtain ⟨-, -, -, -, hb1, -, hb3⟩ := applyEventBools_spec (updData p yy)
    (applyEventModeration (updData p yy) (applyEventTextFields (updData p yy) e))
  have hBid : (applyEventBools (updData p yy) (applyEventModeration (updData p yy)
      (applyEventTextFields (updData p yy) e))).id = e.id := by
    rw [hb1, hm1, ht1]
  have hxB := saveEvent_id_lookup db _ e (List.mem_of_find?_eq_some hfind) hBid.symm
    x hx (by rw [hxid, ← hBid])
  rw [hxB, hb3, applyEventModeration_moderation]
  have hdmod : fmGet (updData p yy) "moderation" = some v := by
    rw [fmGet_updData p yy _ (by decide) (by decide) (by decide)]
    exact hmod
  simp only [hdmod]
  rw [ht3]

/-- Witness for `c7_moderation_tolerant`: the unrecognized moderation value
"zzz" is ignored — the update still succeeds and `accEvent`'s moderation
stays "A". -/
theorem c7_witness :
    playaEventCreateOrUpdate visDB true "PUT" [("moderation", "zzz")] 4 (some "2012")
        (some 5)
      = some (.allOk accEvent.id, saveEvent visDB
          (applyEventBools (updData [("moderation", "zzz")] (some "2012"))
            (applyEventModeration (updData [("moderation", "zzz")] (some "2012"))
              (applyEventTextFields (updData [("moderation", "zzz")] (some "2012"))
                accEvent)))) ∧
    accEvent.moderation
      = (if strUpper "zzz" == "U" || strUpper "zzz" == "A" || strUpper "zzz" == "R"
         then strUpper "zzz" else accEvent.moderation) :=
  ⟨(c7_moderation_tolerant visDB [("moderation", "zzz")] 4 (some "2012") 5 accEvent
      "zzz" (by rfl) (by rfl) (by rfl) (by rfl)).1,
   (c7_moderation_tolerant visDB [("moderation", "zzz")] 4 (some "2012") 5 accEvent
      "zzz" (by rfl) (by rfl) (by rfl) (by rfl)).2 accEvent (by decide) (by rfl)⟩

/-! ## Claim C6 -/

/-- Claim C6: textual boolean coercion stores true exactly when the
uppercased payload string is one of 1, T, Y, YES, TRUE, ON, false for any
other string; a whitelisted boolean field absent from the map keeps the
entity's existing value.  Stated end-to-end through a successful update for
the event fields (check_location, all_day, list_online, list_contact_online)
and the camp field (list_online). -/
theorem c6_boolean_coercion :
    (∀ s, coerceBool s = true ↔
       (strUpper s = "1" ∨ strUpper s = "T" ∨ strUpper s = "Y" ∨ strUpper s = "YES"
        ∨ strUpper s = "TRUE" ∨ strUpper s = "ON")) ∧
    (∀ db a m p u yy eid e r db2,
       db.events.find? (fun x => x.id == eid) = some e →
       playaEventCreateOrUpdate db a m p u yy (some eid) = some (r, db2) →
       r.isError = false →
       ∀ x ∈ db2.events, x.id = e.id →
         x.check_location = (fmGet p "check_location").elim e.check_location coerceBool ∧
         x.all_day = (fmGet p "all_day").elim e.all_day coerceBool ∧
         x.list_online = (fmGet p "list_online").elim e.list_online coerceBool ∧
         x.list_contact_online
           = (fmGet p "list_contact_online").elim e.list_contact_online coerceBool) ∧
    (∀ db a m p yy cid camp r db2,
       (themeCampObjects db).find? (fun c => c.id == cid) = some camp →
       themeCampCreateOrUpdate db a m p yy (some cid) = some (r, db2) →
       r.isError = false →
       ∀ x ∈ db2.camps, x.id = camp.id →
         x.list_online = (fmGet p "list_online").elim camp.list_online coerceBool) := by
  refine ⟨?_, ?_, ?_⟩
  · intro s
    simp [coerceBool, Bool.or_eq_true, beq_iff_eq, or_assoc]
  · intro db a m p u yy eid e r db2 hfind hrun hok x hx hxid
    obtain ⟨obj3, obj4, hA, hB, hdb2⟩ := event_update_success db a m p u yy eid e r db2
      hfind hrun hok
    obtain ⟨ht1, -, -, ht4, ht5, ht6, ht7⟩ := applyEventTextFields_frame (updData p yy) e
    obtain ⟨hm1, -, hm3, hm4, hm5, hm6⟩ := applyEventModeration_frame (updData p yy)
      (applyEventTextFields (updData p yy) e)
    obtain ⟨ha1, -, -, ha4, ha5, ha6, ha7⟩ := applyHostedByCamp_ok_frame db (updData p yy)
      _ obj3 hA
    obtain ⟨hc1, -, -, hc4, hc5, hc6, hc7⟩ := applyLocatedAtArt_ok_frame db (updData p yy)
      obj3 obj4 hB
    obtain ⟨hs1, hs2, hs3, hs4, hs5, -, -⟩ := applyEventBools_spec (updData p yy) obj4
    have hBid : (applyEventBools (updData p yy) obj4).id = e.id := by
      rw [hs5, hc1, ha1, hm1, ht1]
    subst hdb2
    have hxB := saveEvent_id_lookup db (applyEventBools (updData p yy) obj4) e
      (List.mem_of_find?_eq_some hfind) hBid.symm x hx (by rw [hxid, ← hBid])
    have hg1 : fmGet (updData p yy) "check_location" = fmGet p "check_location" :=
      fmGet_updData p yy _ (by decide) (by decide) (by decide)
    have hg2 : fmGet (updData p yy) "all_day" = fmGet p "all_day" :=
      fmGet_updData p yy _ (by decide) (by decide) (by decide)
    have hg3 : fmGet (updData p yy) "list_online" = fmGet p "list_online" :=
      fmGet_updData p yy _ (by decide) (by decide) (by decide)
    have hg4 : fmGet (updData p yy) "list_contact_online" = fmGet p "list_contact_online" :=
      fmGet_updData p yy _ (by decide) (by decide) (by decide)
    refine ⟨?_, ?_, ?_, ?_⟩
    · rw [hxB, hs1, hg1, hc4, ha4, hm3, ht4]
    · rw [hxB, hs2, hg2, hc5, ha5, hm4, ht5]
    · rw [hxB, hs3, hg3, hc6, ha6, hm5, ht6]
    · rw [hxB, hs4, hg4, hc7, ha7, hm6, ht7]
  · intro db a m p yy cid camp r db2 hfind hrun hok x hx hxid
    obtain ⟨obj2, obj3, hA, hB, hdb2⟩ := camp_update_success db a m p yy cid camp r db2
      hfind hrun hok
    obtain ⟨hA1, -, hA3, -⟩ := applyCircularStreet_ok_frame db (updCampData p yy) camp
      obj2 hA
    have hB32 : obj3 = obj2 := applyTimeStreet_ok_eq db (updCampData p yy) obj2 obj3 hB
    obtain ⟨ht1, -, ht3, -⟩ := applyCampTextFields_frame (updCampData p yy) obj3
    obtain ⟨hs1, hs2, -⟩ := applyCampBools_spec (updCampData p yy)
      (applyCampTextFields (updCampData p yy) obj3)
    have hmem : camp ∈ db.camps := (List.mem_filter.mp (List.mem_of_find?_eq_some hfind)).1
    have hBid : (applyCampBools (updCampData p yy)
        (applyCampTextFields (updCampData p yy) obj3)).id = camp.id := by
      rw [hs2, ht1, hB32, hA1]
    subst hdb2
    have hxB := saveCamp_id_lookup db _ camp hmem hBid.symm x hx (by rw [hxid, ← hBid])
    have hg : fmGet (updCampData p yy) "list_online" = fmGet p "list_online" :=
      fmGet_updCampData p yy _ (by decide) (by decide) (by decide) (by decide) (by decide)
    rw [hxB, hs1, hg, ht3, hB32, hA3]

/-- Witness for `c6_boolean_coercion`: updating event pk 5 with
`all_day = "YES"` stores true for all_day and keeps the other boolean fields
at their existing values. -/
theorem c6_witness :
    ({ accEvent with all_day := true } : PlayaEvent).check_location
        = (fmGet [("all_day", "YES")] "check_location").elim accEvent.check_location
            coerceBool ∧
    ({ accEvent with all_day := true } : PlayaEvent).all_day
        = (fmGet [("all_day", "YES")] "all_day").elim accEvent.all_day coerceBool ∧
    ({ accEvent with all_day := true } : PlayaEvent).list_online
        = (fmGet [("all_day", "YES")] "list_online").elim accEvent.list_online
            coerceBool ∧
    ({ accEvent with all_day := true } : PlayaEvent).list_contact_online
        = (fmGet [("all_day", "YES")] "list_contact_online").elim
            accEvent.list_contact_online coerceBool :=
  (c6_boolean_coercion.2.1 visDB true "PUT" [("all_day", "YES")] 4 (some "2012") 5
    accEvent (.allOk 5) (saveEvent visDB { accEvent with all_day := true })
    (by rfl) (by decide) (by rfl)) { accEvent with all_day := true } (by decide) (by rfl)

/-! ## Claim C9 -/

/-- Claim C9: a ThemeCamp with `list_online=False` is unreachable through the
write path, because updating by id, deleting by id, and resolving it as an
Event's `hosted_by_camp` key all go through the default manager, which
filters to `list_online=True`: each fails with a not-found error and leaves
the database untouched, even though the row exists. -/
theorem c9_hidden_camp_unreachable :
    ∀ db cid,
      (∀ c ∈ db.camps, c.id = cid → c.list_online = false) →
      (∀ p yy, p ≠ [] →
         themeCampCreateOrUpdate db true "PUT" p yy (some cid)
           = some (.notHere ("ThemeCamp not found #" ++ toString cid), db)) ∧
      (∀ yy, themeCampDelete db true yy (some cid)
         = (.notHere ("Camp not found #" ++ toString cid), db)) ∧
      (∀ u s et, s.toNat? = some cid →
         db.eventTypes.find? (fun t => t.id == 1) = some et →
         playaEventCreateOrUpdate db true "POST" [("hosted_by_camp", s)] u none none
           = some (.notHere ("No such camp: " ++ s), db)) := by
  intro db cid hHidden
  have hnone : (themeCampObjects db).find? (fun c => c.id == cid) = none := by
    rw [List.find?_eq_none]
    intro c hc hbeq
    have hmem := List.mem_filter.mp hc
    have h1 : c.list_online = true := by simpa using hmem.2
    have h2 : c.id = cid := by simpa using hbeq
    rw [hHidden c hmem.1 h2] at h1
    exact Bool.noConfusion h1
  refine ⟨?_, ?_, ?_⟩
  · intro p yy hp
    unfold themeCampCreateOrUpdate
    rw [if_neg (by decide), if_neg (by decide),
      if_neg (by simp [injectYear_isEmpty_false p yy hp])]
    simp only [campPipeline, resolveCampTarget, hnone]
  · intro yy
    unfold themeCampDelete
    rw [if_neg (by decide)]
    simp only [hnone]
  · intro u s et hs het
    unfold playaEventCreateOrUpdate
    rw [if_neg (by decide), if_neg (by decide), if_neg (by simp [injectYear])]
    simp [injectYear, eventPipeline, resolveEventTarget, het, fmGet, fmDel,
      applyEventYear, applyEventTextFields, applyEventModeration, applyHostedByCamp,
      getByPk, hs, hnone, applyLocatedAtArt, applyEventBools]

/-- Witness for `c9_hidden_camp_unreachable`: updating `hiddenCamp` (pk 3,
list_online false) in `hiddenDB` fails with not-found and changes nothing. -/
theorem c9_witness :
    themeCampCreateOrUpdate hiddenDB true "PUT" [("name", "N")] (some "2012") (some 3)
      = some (.notHere ("ThemeCamp not found #" ++ toString 3), hiddenDB) :=
  ((c9_hidden_camp_unreachable hiddenDB 3 (by decide)).1) [("name", "N")] (some "2012")
    (by decide)

/-! ## Claim C10 -/

/-- Claim C10: updates and deletes resolve their target by primary key alone
— the year path segment never restricts the lookup (for camps the default
manager's `list_online` filter applies, see C9) — so an entity whose year
differs from the year in the request path is still found, modified or
deleted, and reported as a success. -/
theorem c10_pk_only_resolution :
    (∀ db p u yy ypath eid e,
       db.years.find? (fun y => y.year == yy) = some ypath →
       db.events.find? (fun x => x.id == eid) = some e →
       ypath.id ≠ e.yearId →
       fmGet p "hosted_by_camp" = none → fmGet p "located_at_art" = none →
       p ≠ [] →
       playaEventCreateOrUpdate db true "PUT" p u (some yy) (some eid)
         = some (.allOk e.id, saveEvent db (applyEventBools (updData p (some yy))
             (applyEventModeration (updData p (some yy))
               (applyEventTextFields (updData p (some yy)) e))))) ∧
    (∀ db yy ypath eid e,
       db.years.find? (fun y => y.year == yy) = some ypath →
       db.events.find? (fun x => x.id == eid) = some e →
       ypath.id ≠ e.yearId →
       playaEventDelete db true (some yy) (some eid)
         = (.deletedOk ("Event rejected #" ++ toString eid),
            saveEvent db { e with moderation := "R" })) ∧
    (∀ db p yy ypath cid camp,
       db.years.find? (fun y => y.year == yy) = some ypath →
       (themeCampObjects db).find? (fun c => c.id == cid) = some camp →
       ypath.id ≠ camp.yearId →
       fmGet p "circular_street" = none → fmGet p "time_street" = none →
       p ≠ [] →
       themeCampCreateOrUpdate db true "PUT" p (some yy) (some cid)
         = some (.allOk camp.id, saveCamp db (applyCampBools (updCampData p (some yy))
             (applyCampTextFields (updCampData p (some yy)) camp)))) ∧
    (∀ db yy ypath cid camp,
       db.years.find? (fun y => y.year == yy) = some ypath →
       (themeCampObjects db).find? (fun c => c.id == cid) = some camp →
       ypath.id ≠ camp.yearId →
       themeCampDelete db true (some yy) (some cid)
         = (.deletedOk ("Camp deleted #" ++ toString cid),
            saveCamp db { camp with deleted := true })) := by
  refine ⟨?_, ?_, ?_, ?_⟩
  · intro db p u yy ypath eid e hy hfind hne hcamp hart hp
    exact event_update_run db p u (some yy) eid e hfind hcamp hart hp
  · intro db yy ypath eid e hy hfind hne
    unfold playaEventDelete
    rw [if_neg (by decide)]
    simp only [hfind]
  · intro db p yy ypath cid camp hy hfind hne hcirc htime hp
    exact camp_update_run db p (some yy) cid camp hfind hcirc htime hp
  · intro db yy ypath cid camp hy hfind hne
    unfold themeCampDelete
    rw [if_neg (by decide)]
    simp only [hfind]

/-- Witness for `c10_pk_only_resolution`: deleting event pk 5 through the
path for year "2031" (the event belongs to year "2012") still succeeds and
marks it Rejected. -/
theorem c10_witness :
    playaEventDelete mismatchDB true (some "2031") (some 5)
      = (.deletedOk ("Event rejected #" ++ toString 5),
         saveEvent mismatchDB { accEvent with moderation := "R" }) :=
  c10_pk_only_resolution.2.1 mismatchDB "2031" { id := 2, year := "2031" } 5 accEvent
    (by rfl) (by rfl) (by decide)

/-! ## Claim C8 -/

theorem cacheGet_cacheSet_self {α : Type} (c : CacheOf α) (now t : Nat) (key : String)
    (v : α) (len : Nat) (h : t < now + len) :
    cacheGet (cacheSet c now key v len) t key = some v := by
  simp [cacheGet, cacheSet, List.find?, h]

theorem playaGetAndCache_hit (f : List PlayaEvent → FieldMap → List PlayaEvent)
    (c : CacheOf (List PlayaEvent)) (now : Nat) (db : DB) (kw : FieldMap)
    (v : List PlayaEvent)
    (h : cacheGet c now (cacheKeyOf "PlayaEvent" kw) = some v) :
    playaGetAndCache f c now db kw = (v, c) := by
  unfold playaGetAndCache
  simp only [h]

theorem playaGetAndCache_miss (f : List PlayaEvent → FieldMap → List PlayaEvent)
    (c : CacheOf (List PlayaEvent)) (now : Nat) (db : DB) (kw : FieldMap)
    (h : cacheGet c now (cacheKeyOf "PlayaEvent" kw) = none) :
    playaGetAndCache f c now db kw
      = ((if !kw.isEmpty then f db.events kw else db.events),
         cacheSet c now (cacheKeyOf "PlayaEvent" kw)
           (if !kw.isEmpty then f db.events kw else db.events) (60*60*24)) := by
  unfold playaGetAndCache
  simp only [h]

theorem campGetAndCache_hit (f : List ThemeCamp → FieldMap → List ThemeCamp)
    (c : CacheOf (List ThemeCamp)) (now : Nat) (db : DB) (kw : FieldMap)
    (v : List ThemeCamp)
    (h : cacheGet c now (cacheKeyOf "ThemeCamp" kw) = some v) :
    campGetAndCache f c now db kw = (v, c) := by
  unfold campGetAndCache
  simp only [h]

theorem campGetAndCache_miss (f : List ThemeCamp → FieldMap → List ThemeCamp)
    (c : CacheOf (List ThemeCamp)) (now : Nat) (db : DB) (kw : FieldMap)
    (h : cacheGet c now (cacheKeyOf "ThemeCamp" kw) = none) :
    campGetAndCache f c now db kw
      = ((if !kw.isEmpty then f (themeCampObjects db) kw else themeCampObjects db),
         cacheSet c now (cacheKeyOf "ThemeCamp" kw)
           (if !kw.isEmpty then f (themeCampObjects db) kw else themeCampObjects db)
           (60*60*24)) := by
  unfold campGetAndCache
  simp only [h]

/-- Claim C8: `get_and_cache` returns the cached sequence unchanged on a hit
(leaving the cache untouched); on a miss it evaluates the query against the
current store, stores the materialized list under the deterministic key with
a fixed TTL of `60*60*24` seconds, and returns it; consequently a second
call with identical parameters within the TTL window returns the identical
sequence even when the underlying store changed in between.  Stated for both
`PlayaEventManager.get_and_cache` and `ThemeCampManager.get_and_cache`. -/
theorem c8_cache_aside :
    (∀ f c now db kw v,
       cacheGet c now (cacheKeyOf "PlayaEvent" kw) = some v →
       playaGetAndCache f c now db kw = (v, c)) ∧
    (∀ f c now db kw,
       cacheGet c now (cacheKeyOf "PlayaEvent" kw) = none →
       playaGetAndCache f c now db kw
         = ((if !kw.isEmpty then f db.events kw else db.events),
            cacheSet c now (cacheKeyOf "PlayaEvent" kw)
              (if !kw.isEmpty then f db.events kw else db.events) (60*60*24))) ∧
    (∀ f c t1 t2 db db2 kw,
       cacheGet c t1 (cacheKeyOf "PlayaEvent" kw) = none →
       t2 < t1 + 60*60*24 →
       (playaGetAndCache f ((playaGetAndCache f c t1 db kw).2) t2 db2 kw).1
         = (playaGetAndCache f c t1 db kw).1) ∧
    (∀ f c now db kw v,
       cacheGet c now (cacheKeyOf "ThemeCamp" kw) = some v →
       campGetAndCache f c now db kw = (v, c)) ∧
    (∀ f c now db kw,
       cacheGet c now (cacheKeyOf "ThemeCamp" kw) = none →
       campGetAndCache f c now db kw
         = ((if !kw.isEmpty then f (themeCampObjects db) kw else themeCampObjects db),
            cacheSet c now (cacheKeyOf "ThemeCamp" kw)
              (if !kw.isEmpty then f (themeCampObjects db) kw else themeCampObjects db)
              (60*60*24))) ∧
    (∀ f c t1 t2 db db2 kw,
       cacheGet c t1 (cacheKeyOf "ThemeCamp" kw) = none →
       t2 < t1 + 60*60*24 →
       (campGetAndCache f ((campGetAndCache f c t1 db kw).2) t2 db2 kw).1
         = (campGetAndCache f c t1 db kw).1) := by
  refine ⟨playaGetAndCache_hit, playaGetAndCache_miss, ?_,
    campGetAndCache_hit, campGetAndCache_miss, ?_⟩
  · intro f c t1 t2 db db2 kw hmiss ht
    rw [playaGetAndCache_miss f c t1 db kw hmiss]
    have hset := cacheGet_cacheSet_self c t1 t2 (cacheKeyOf "PlayaEvent" kw)
      (if !kw.isEmpty then f db.events kw else db.events) (60*60*24) ht
    rw [playaGetAndCache_hit f _ t2 db2 kw _ hset]
  · intro f c t1 t2 db db2 kw hmiss ht
    rw [campGetAndCache_miss f c t1 db kw hmiss]
    have hset := cacheGet_cacheSet_self c t1 t2 (cacheKeyOf "ThemeCamp" kw)
      (if !kw.isEmpty then f (themeCampObjects db) kw else themeCampObjects db)
      (60*60*24) ht
    rw [campGetAndCache_hit f _ t2 db2 kw _ hset]

/-- Witness for `c8_cache_aside`: a cold read against `occDB` at time 0
followed by a read at time 100 against a now-empty store still returns the
first result. -/
theorem c8_witness :
    (playaGetAndCache (fun l _ => l)
        ((playaGetAndCache (fun l _ => l) [] 0 occDB []).2) 100 emptyDB []).1
      = (playaGetAndCache (fun l _ => l) [] 0 occDB []).1 :=
  c8_cache_aside.2.2.1 (fun l _ => l) [] 0 100 occDB emptyDB [] (by rfl) (by decide)
